import Mathlib

/-!
Shallow embedding of `src/ArmRobot.py` (the choreography core of the
BlenderRobotArm repository): the part registry (`duplicate_object`), the
transform primitives (`set_location`, `rotate_object`, `resize_object`,
`translate_object`, `rotateObjectOnSelect`, `rotate_object_on_x_axis`),
the keyframe recorder (`insertKeyFrameForObjectTrans`), the assembly step
(`importArmRobot`) and the sequencer (`gen_centerpiece` with the ten
`transformasi...` phase-transition functions).

Modelling conventions, each justified where it is used:

* Scalars are exact rationals (`ℚ`); the Python floats of the source are
  transcribed as exact decimal fractions.
* The host's trigonometric evaluation is kept abstract: every function
  that reaches `bpy.ops.transform.rotate` is parametric in a
  `Trig : ℚ → Rot` argument mapping an angle (radians) to the
  cosine/sine pair of its rotation.  Theorems about whole runs are
  stated for every such oracle, so they hold in particular for the real
  cosine/sine.
* `math.radians` multiplies by pi/180; pi is modelled by the rational
  `piQ` below.  No theorem depends on the value of `piQ` beyond its
  positivity.
* Objects are identified by their unique name, exactly as the source
  does (`bpy.data.objects.get(name)` / `bpy.data.objects[name]`); in
  every reachable state of the modelled runs names are unique and no
  name collision occurs on creation.
* Selection state (`select_all`, `select_set`) is not modelled as scene
  data: every selection made by the source is immediately consumed by
  the transform operator of the same function, and a crash during
  selection (`None.name`, `bpy.data.objects[missing]`) happens before
  any mutation, which the embedding mirrors with `Except` errors
  carrying the unchanged scene.
* `bpy.ops.transform.rotate` (used by `rotateObjectOnSelect` and
  `rotate_object_on_x_axis`) rotates the selected objects about the
  given global axis through the transform pivot point; the pivot point
  of a fresh Blender session is the default `MEDIAN_POINT`, the mean of
  the selected objects' origins, and the script never changes that
  setting.  The orientation write-back is exact for the global Z axis
  under Blender's default XYZ euler order (`eulerGlobalAdd`); for the
  global X axis it coincides with the host's euler recomputation when
  the other two angles vanish, and no theorem in this file inspects an
  euler value produced by the X-axis path.
* Python exceptions (`AttributeError` on `None.name`, `KeyError` on
  `bpy.data.objects[missing]`, a bad keyframe channel) are modelled as
  `Except.error` carrying a message and the scene at the moment the
  exception is raised; an error aborts the rest of the run, exactly as
  an uncaught Python exception does.
-/

/-- A 3-vector of exact rationals (Blender float triples). -/
structure Vec3 where
  x : ℚ
  y : ℚ
  z : ℚ
deriving DecidableEq, Repr

def Vec3.add (a b : Vec3) : Vec3 := ⟨a.x + b.x, a.y + b.y, a.z + b.z⟩

def Vec3.sub (a b : Vec3) : Vec3 := ⟨a.x - b.x, a.y - b.y, a.z - b.z⟩

def Vec3.zero : Vec3 := ⟨0, 0, 0⟩

def Vec3.one : Vec3 := ⟨1, 1, 1⟩

/-- Componentwise division by a scalar (used for the median-point mean). -/
def Vec3.divQ (a : Vec3) (q : ℚ) : Vec3 := ⟨a.x / q, a.y / q, a.z / q⟩

/-- The cosine/sine pair of a rotation angle. -/
structure Rot where
  c : ℚ
  s : ℚ
deriving DecidableEq, Repr

/-- The host's trigonometric evaluation, kept abstract: it maps an angle in
radians to the cosine/sine pair of the corresponding rotation.  Run-level
theorems quantify over it. -/
def Trig : Type := ℚ → Rot

inductive Axis where
  | X
  | Y
  | Z
deriving DecidableEq, Repr

/-- Rotation of a vector about a global axis, given the cosine/sine pair
(right-handed, the convention of `bpy.ops.transform.rotate` with a GLOBAL
orientation matrix). -/
def rotAxis (r : Rot) (ax : Axis) (v : Vec3) : Vec3 :=
  match ax with
  | .X => ⟨v.x, r.c * v.y - r.s * v.z, r.s * v.y + r.c * v.z⟩
  | .Y => ⟨r.c * v.x + r.s * v.z, v.y, r.c * v.z - r.s * v.x⟩
  | .Z => ⟨r.c * v.x - r.s * v.y, r.s * v.x + r.c * v.y, v.z⟩

/-- The euler write-back of a global-axis rotation by `t` radians under
Blender's default XYZ euler order.  For the Z axis this is exact
(`Rz(t) * Rz(c)Ry(b)Rx(a) = Rz(c+t)Ry(b)Rx(a)`); for the X and Y axes it
agrees with the host exactly when the other two euler angles vanish, and no
theorem in this file inspects an euler value produced through those cases. -/
def eulerGlobalAdd (ax : Axis) (t : ℚ) (e : Vec3) : Vec3 :=
  match ax with
  | .X => ⟨e.x + t, e.y, e.z⟩
  | .Y => ⟨e.x, e.y + t, e.z⟩
  | .Z => ⟨e.x, e.y, e.z + t⟩

/-- One recorded keyframe of one object: the pose channel
(`"location"` / `"rotation_euler"`), the frame number, and the channel
value committed at that frame. -/
structure KF where
  channel : String
  frame : ℕ
  value : Vec3
deriving DecidableEq, Repr

/-- One scene object: its unique name, the id of the shape-data block it
references, its collection, its pose (location, euler rotation in radians,
scale), and the keyframes recorded on it. -/
structure Obj where
  name : String
  dataId : ℕ
  coll : String
  loc : Vec3
  rot : Vec3
  scl : Vec3
  kfs : List KF
deriving DecidableEq, Repr

/-- The scene data store: live objects (in creation order), the shape-data
blocks as (id, content) pairs -- `content` is an opaque tag standing for the
geometry payload, which `ID.copy()` copies verbatim into a fresh block --
a fresh-id counter, and the collection names. -/
structure Scene where
  objs : List Obj
  datablocks : List (ℕ × ℕ)
  nextData : ℕ
  colls : List String
deriving DecidableEq, Repr

/-- A Python exception: its message and the scene at the moment of raising
(an uncaught exception aborts the run, leaving the scene as it then was). -/
def Err : Type := String × Scene

/-- `bpy.data.objects.get(name)`. -/
def getObj (s : Scene) (n : String) : Option Obj :=
  s.objs.find? (fun o => o.name == n)

/-- Update the object of the given name in place (attribute assignment on a
live object). -/
def updObj (s : Scene) (n : String) (f : Obj → Obj) : Scene :=
  { s with objs := s.objs.map (fun o => if o.name == n then f o else o) }

/-- Content of a shape-data block. -/
def dataPayload (s : Scene) (i : ℕ) : Option ℕ :=
  (s.datablocks.find? (fun d => d.1 == i)).map (·.2)

/-- Create-if-absent for a collection name (`bpy.data.collections.new` +
link when missing). -/
def linkCollection (s : Scene) (c : String) : Scene :=
  if c ∈ s.colls then s else { s with colls := s.colls ++ [c] }

/-- Embedding of `duplicate_object` (ArmRobot.py lines 461-484):
look the template up by name; on failure print and return `None`
(modelled as `none`, scene unchanged).  On success `original_object.data.copy()`
creates a FRESH data block whose content is copied from the template's
block, `bpy.data.objects.new(new_name, new_object_data)` creates a new
object referencing it with the host's default identity pose (location
`(0,0,0)`, rotation `(0,0,0)`, scale `(1,1,1)`), and the object is linked
into the named collection (created if absent) or, absent a name, into the
template's own collection. -/
def duplicate_object (s : Scene) (original_name new_name : String)
    (collection_name : Option String) : Option String × Scene :=
  match getObj s original_name with
  | none => (none, s)
  | some orig =>
    let payload := (dataPayload s orig.dataId).getD 0
    let newDataId := s.nextData
    let s1 : Scene := { s with
      datablocks := s.datablocks ++ [(newDataId, payload)],
      nextData := s.nextData + 1 }
    let coll := collection_name.getD orig.coll
    let s2 := match collection_name with
      | some c => linkCollection s1 c
      | none => s1
    let newObj : Obj :=
      { name := new_name, dataId := newDataId, coll := coll,
        loc := Vec3.zero, rot := Vec3.zero, scl := Vec3.one, kfs := [] }
    (some new_name, { s2 with objs := s2.objs ++ [newObj] })

/-- Rational stand-in for pi, used only inside `math.radians`; no theorem
depends on its value beyond `0 < piQ`. -/
def piQ : ℚ := 3141592653589793 / 1000000000000000

/-- `math.radians`. -/
def radiansQ (d : ℚ) : ℚ := d * piQ / 180

/-- Embedding of `rotate_object` (lines 486-491): a no-op on `None`,
otherwise adds each degree argument, converted to radians, to the object's
current per-axis euler rotation. -/
def rotate_object (s : Scene) (r : Option String) (xd yd zd : ℚ) : Scene :=
  match r with
  | none => s
  | some n => updObj s n (fun o =>
      { o with rot := ⟨o.rot.x + radiansQ xd, o.rot.y + radiansQ yd,
                       o.rot.z + radiansQ zd⟩ })

/-- Embedding of `set_location` (lines 493-496): a no-op on `None`,
otherwise absolute placement. -/
def set_location (s : Scene) (r : Option String) (x y z : ℚ) : Scene :=
  match r with
  | none => s
  | some n => updObj s n (fun o => { o with loc := ⟨x, y, z⟩ })

/-- Embedding of `resize_object` (lines 555-558): a no-op on `None`,
otherwise absolute scale (negative components mirror). -/
def resize_object (s : Scene) (r : Option String) (sx sy sz : ℚ) : Scene :=
  match r with
  | none => s
  | some n => updObj s n (fun o => { o with scl := ⟨sx, sy, sz⟩ })

/-- Embedding of `translate_object` (lines 498-504).  The source has NO
`None` guard: it evaluates `obj.name` immediately, so a `None` argument
raises `AttributeError` before anything is mutated; a dangling name raises
`KeyError` at `bpy.data.objects[obj.name]`.  Otherwise
`bpy.ops.transform.translate` adds the world-space offset to the selected
object's location. -/
def translate_object (s : Scene) (r : Option String) (tx ty tz : ℚ) :
    Except Err Scene :=
  match r with
  | none => .error ("AttributeError: NoneType object has no attribute name", s)
  | some n =>
    if (getObj s n).isSome then
      .ok (updObj s n (fun o => { o with loc := o.loc.add ⟨tx, ty, tz⟩ }))
    else .error ("KeyError", s)

/-- Mean of the origins of a list of objects: Blender's MEDIAN_POINT
transform pivot for an object-mode selection. -/
def meanLoc (objs : List Obj) : Vec3 :=
  (objs.foldl (fun a o => a.add o.loc) Vec3.zero).divQ objs.length

/-- The effect of `bpy.ops.transform.rotate(value := t, orient_axis := ax,
orient_type = GLOBAL)` on the selected objects: each origin orbits the
pivot (the MEDIAN_POINT of the selection, i.e. the mean of the selected
origins -- the factory-default pivot, never changed by the script) and each
orientation is composed with the global rotation (`eulerGlobalAdd`). -/
def applyGlobalRotate (s : Scene) (selNames : List String) (t : ℚ)
    (ax : Axis) (trig : Trig) : Scene :=
  let sel := s.objs.filter (fun o => selNames.contains o.name)
  let pivot := meanLoc sel
  { s with objs := s.objs.map (fun o =>
      if selNames.contains o.name then
        { o with
          loc := pivot.add (rotAxis (trig t) ax (o.loc.sub pivot)),
          rot := eulerGlobalAdd ax t o.rot }
      else o) }

/-- Embedding of `rotateObjectOnSelect` (lines 506-515): deselect all, then
select every object of the list by `bpy.data.objects[i.name]` -- a `None`
entry raises `AttributeError` at `i.name`, a dangling name raises
`KeyError`, in both cases before the transform runs -- then rotate the
whole selection together about the given global axis. -/
def rotateObjectOnSelect (s : Scene) (objList : List (Option String))
    (radValue : ℚ) (ax : Axis) (trig : Trig) : Except Err Scene :=
  if objList.all Option.isSome then
    let ns := objList.filterMap id
    if ns.all (fun n => (getObj s n).isSome) then
      .ok (applyGlobalRotate s ns radValue ax trig)
    else .error ("KeyError", s)
  else .error ("AttributeError: NoneType object has no attribute name", s)

/-- Embedding of `rotate_object_on_x_axis` (lines 517-553): looks the
object up BY NAME; a missing name prints and returns (a no-op).  Otherwise
the single object is selected alone and rotated about the global X axis --
the MEDIAN_POINT pivot of a one-object selection is that object's own
origin, so its location is unchanged and only its orientation turns. -/
def rotate_object_on_x_axis (s : Scene) (obj_name : String)
    (rotation_value : ℚ) (trig : Trig) : Scene :=
  match getObj s obj_name with
  | none => s
  | some _ => applyGlobalRotate s [obj_name] rotation_value Axis.X trig

/-- `obj.keyframe_insert(channel, frame)`: read the object's CURRENT
channel value and append it as a keyframe at the given frame.  The source
never re-inserts at an existing (channel, frame) pair, so append-only
bookkeeping is faithful. -/
def keyframe_insert (s : Scene) (n : String) (ch : String) (t : ℕ) :
    Except Err Scene :=
  match getObj s n with
  | none => .error ("ReferenceError", s)
  | some o =>
    if ch == "location" then
      .ok (updObj s n (fun o2 => { o2 with kfs := o2.kfs ++ [⟨ch, t, o.loc⟩] }))
    else if ch == "rotation_euler" then
      .ok (updObj s n (fun o2 => { o2 with kfs := o2.kfs ++ [⟨ch, t, o.rot⟩] }))
    else .error ("TypeError", s)

/-- Embedding of `insertKeyFrameForObjectTrans` (lines 619-621): for each
object of the list, in order, commit its current channel value at the
frame; a `None` entry raises `AttributeError` there, keeping the keyframes
already inserted earlier in the loop. -/
def insertKeyFrameForObjectTrans (s : Scene) (objList : List (Option String))
    (transformation : String) (frameTime : ℕ) : Except Err Scene :=
  objList.foldlM (fun st r =>
    match r with
    | none => Except.error ("AttributeError: NoneType object has no attribute keyframe_insert", st)
    | some n => keyframe_insert st n transformation frameTime) s

/-- The sequential `translate_object` loop shared by the four
`transformasiRidho...` phase functions. -/
def translateAll (s : Scene) (refs : List (Option String)) (tx ty tz : ℚ) :
    Except Err Scene :=
  refs.foldlM (fun st r => translate_object st r tx ty tz) s

/-- The sequential `rotate_object_on_x_axis(obj.name, t)` loop shared by
the `transformasiHarish...` / `transformasiDhea...` phase functions; a
`None` entry raises `AttributeError` at `obj.name`. -/
def xRotateAll (s : Scene) (refs : List (Option String)) (t : ℚ)
    (trig : Trig) : Except Err Scene :=
  refs.foldlM (fun st r =>
    match r with
    | none => Except.error ("AttributeError: NoneType object has no attribute name", st)
    | some n => Except.ok (rotate_object_on_x_axis st n t trig)) s

/-- The module-level part handles bound by `importArmRobot` (the `global`
statement of line 333): each is the name of a live duplicate, or `None`
when its duplication failed. -/
structure Parts where
  plate : Option String
  rotor : Option String
  rotor1 : Option String
  rotationaxis : Option String
  cube : Option String
  angle : Option String
  shaft : Option String
  angle1 : Option String
  cube1 : Option String
  shaft001 : Option String
  cube2 : Option String
  angle2 : Option String
  gripper : Option String
  gripper1 : Option String
  thruster : Option String
  thruster1 : Option String
  thruster2 : Option String
  thruster3 : Option String
deriving DecidableEq, Repr

/-- `armRobot_object_list` (line 456) -- the same ordered list is written
out again as `translateList` inside each `transformasiRidho...` function. -/
def armRobotObjectList (p : Parts) : List (Option String) :=
  [p.plate, p.rotor, p.rotor1, p.rotationaxis, p.cube, p.angle, p.shaft,
   p.angle1, p.cube1, p.shaft001, p.cube2, p.angle2, p.gripper, p.gripper1,
   p.thruster, p.thruster1, p.thruster2, p.thruster3]

/-- `rotationList` of the `transformasiRidho...` functions: the moving
linkage, excluding the fixed base `plate` and the four thrusters. -/
def rotationListOf (p : Parts) : List (Option String) :=
  [p.rotor, p.rotor1, p.rotationaxis, p.cube, p.angle, p.shaft, p.angle1,
   p.cube1, p.shaft001, p.cube2, p.angle2, p.gripper, p.gripper1]

/-- `rotateList` of the `transformasiHarish...` functions. -/
def harishListOf (p : Parts) : List (Option String) :=
  [p.angle1, p.cube1, p.shaft001, p.cube2, p.angle2, p.gripper, p.gripper1]

/-- `rotateList` of the `transformasiDhea...` functions. -/
def dheaListOf (p : Parts) : List (Option String) :=
  [p.angle, p.shaft, p.angle1, p.cube1, p.shaft001, p.cube2, p.angle2,
   p.gripper, p.gripper1, p.thruster, p.thruster1, p.thruster2, p.thruster3]

/-- The seven template names imported from STL assets. -/
def templateNames : List String :=
  ["ANGLE", "CUBE", "GRIPPER", "PLATE", "ROTATIONAXIS", "ROTOR", "SHAFT"]

/-- Lines 322-323 of `importArmRobot`: select every object in the scene and
delete it, unconditionally. -/
def clearAllObjects (s : Scene) : Scene := { s with objs := [] }

/-- One `bpy.ops.wm.stl_import` call, modelled from the spec's import
boundary: importing the asset adds an object carrying the asset's name,
with a fresh shape-data block, at the identity pose, in the scene
collection.  The embedding is parametric in `assets`, the set of template
names whose import yields a live object, so that the spec's
missing-template scenario (a template name with no live part) is
expressible; in the nominal run every template is present. -/
def stlImport (assets : List String) (s : Scene) (n : String) : Scene :=
  if assets.contains n then
    { s with
      objs := s.objs ++
        [{ name := n, dataId := s.nextData,
           coll := "Scene Collection", loc := Vec3.zero, rot := Vec3.zero,
           scl := Vec3.one, kfs := [] }],
      datablocks := s.datablocks ++ [(s.nextData, s.nextData)],
      nextData := s.nextData + 1 }
  else s

/-- The seven imports of lines 325-331, in source order. -/
def importTemplates (assets : List String) (s : Scene) : Scene :=
  templateNames.foldl (stlImport assets) s

/-- Lines 446-454: deselect all, then select each of the seven template
objects by name -- `bpy.data.objects[missing]` raises `KeyError`, before
the delete runs -- and delete them. -/
def deleteTemplates (s : Scene) : Except Err Scene :=
  if templateNames.all (fun t => (getObj s t).isSome) then
    .ok { s with objs := s.objs.filter (fun o => !(templateNames.contains o.name)) }
  else .error ("KeyError", s)

/-- The `if x: set_location; rotate_object; resize_object` block repeated
for each duplicate in `importArmRobot`.  Each primitive is itself a no-op
on `None`, so guarding on the handle reproduces the source exactly. -/
def poseBlock (s : Scene) (guard : Option String) (r : Option String)
    (lx ly lz rx ry rz sx sy sz : ℚ) : Scene :=
  if guard.isSome then
    resize_object (rotate_object (set_location s r lx ly lz) r rx ry rz) r sx sy sz
  else s

/-- Lines 335-458 of `importArmRobot`: the eighteen duplications with their
rest poses (each guarded by `if x:` -- note the source's `thruster3` block
is guarded by `if thruster1:`, faithfully reproduced), then the deletion of
the seven templates, then the part list is returned.  A `KeyError` from
the template deletion aborts with the scene as it then is. -/
def importArmRobotBody (s0 : Scene) : Except Err (Parts × Scene) :=
  let (plate, s) := duplicate_object s0 "PLATE" "plate" (some "Collection")
  let s := poseBlock s plate plate (-190249/100000) (-935105/1000000) (490659/1000000) 0 0 0 (29202/1000000) (29202/1000000) (29202/1000000)
  let (rotor, s) := duplicate_object s "ROTOR" "rotor" (some "Collection")
  let s := poseBlock s rotor rotor (-67378/1000000) (127627/100000) (114376/100000) 0 0 45 (-26674/1000000) (-26674/1000000) (-26674/1000000)
  let (rotationaxis, s) := duplicate_object s "ROTATIONAXIS" "rotationaxis" (some "Collection")
  let s := poseBlock s rotationaxis rotationaxis (-82457/1000000) (126177/100000) (103893/100000) 0 0 0 (-79003/1000000) (-94633/1000000) (28991/1000000)
  let (cube, s) := duplicate_object s "CUBE" "cube" (some "Collection")
  let s := poseBlock s cube cube (76949/1000000) (940057/1000000) (169695/100000) 180 0 0 (-20435/1000000) (-44361/1000000) (43016/1000000)
  let (angle, s) := duplicate_object s "ANGLE" "angle" (some "Collection")
  let s := poseBlock s angle angle (-358202/1000000) (926703/1000000) (191278/100000) (223887/1000) 0 180 (22659/1000000) (22659/1000000) (22659/1000000)
  let (shaft, s) := duplicate_object s "SHAFT" "shaft" (some "Collection")
  let s := poseBlock s shaft shaft (-92524/1000000) (446057/1000000) (211501/100000) (358352/10000) 40 (31385/100) (2375/100000) (2375/100000) (2375/100000)
  let (angle1, s) := duplicate_object s "angle" "angle1" (some "Collection")
  let s := poseBlock s angle1 angle1 (-358202/1000000) (-29123/1000000) (242568/100000) (40158/1000) 0 180 (22659/1000000) (22659/1000000) (22659/1000000)
  let (cube1, s) := duplicate_object s "cube" "cube1" (some "Collection")
  let s := poseBlock s cube1 cube1 (76949/1000000) (-450501/1000000) (266975/100000) (-137333/1000) 0 0 (-20394/1000000) (-43908/1000000) (-20394/1000000)
  let (shaft001, s) := duplicate_object s "shaft" "shaft001" (some "Collection")
  let s := poseBlock s shaft001 shaft001 (-92524/1000000) (164382/1000000) (342365/100000) (-33431/1000) (-33431/1000) (3234/10) (2375/100000) (2375/100000) (2375/100000)
  let (cube2, s) := duplicate_object s "cube1" "cube2" (some "Collection")
  let s := poseBlock s cube2 cube2 (76949/1000000) (550098/1000000) (363451/100000) (-137333/1000) 0 0 (-20394/1000000) (-43908/1000000) (-20394/1000000)
  let (angle2, s) := duplicate_object s "angle1" "angle2" (some "Collection")
  let s := poseBlock s angle2 angle2 (-358202/1000000) (105752/100000) (347314/100000) (401576/10000) 0 (-180) (22659/1000000) (22659/1000000) (22659/1000000)
  let (rotor1, s) := duplicate_object s "rotor" "rotor1" (some "Collection")
  let s := poseBlock s rotor1 rotor1 (-72524/1000000) (156643/100000) (317345/100000) (-145664/1000) (-291768/10000) (355155/10000) (-19042/1000000) (-19042/1000000) (-19042/1000000)
  let (gripper, s) := duplicate_object s "GRIPPER" "gripper" (some "Collection")
  let s := poseBlock s gripper gripper (-355968/1000000) (153367/100000) (32287/10000) (214081/1000) 0 0 (21216/1000000) (21216/1000000) (21216/1000000)
  let (gripper1, s) := duplicate_object s "gripper" "gripper1" (some "Collection")
  let s := poseBlock s gripper1 gripper1 (215339/1000000) (159303/100000) (316052/100000) (-389312/10000) 0 180 (21216/1000000) (21216/1000000) (21216/1000000)
  let (thruster, s) := duplicate_object s "rotor1" "thruster" (some "Collection")
  let s := poseBlock s thruster thruster (176499/100000) (-977508/1000000) (-2476/1000000) (176994/1000) (29716/10000) (446315/10000) (-23033/1000000) (-23033/1000000) (-23033/1000000)
  let (thruster1, s) := duplicate_object s "thruster" "thruster1" (some "Collection")
  let s := poseBlock s thruster1 thruster1 (-188332/100000) (-968107/1000000) (-117/100000) (176994/1000) (29716/10000) (446315/10000) (-23033/1000000) (-23033/1000000) (-23417/1000000)
  let (thruster2, s) := duplicate_object s "thruster1" "thruster2" (some "Collection")
  let s := poseBlock s thruster2 thruster2 (-186581/100000) (266486/100000) (6509/1000000) (176994/1000) (29716/10000) (446315/10000) (-23033/1000000) (-23033/1000000) (-23417/1000000)
  let (thruster3, s) := duplicate_object s "thruster1" "thruster3" (some "Collection")
  let s := poseBlock s thruster1 thruster3 (176499/100000) (26485/10000) (-11162/1000000) (179135/1000) (856294/1000000) (44703/1000) (-23033/1000000) (-23033/1000000) (-23033/1000000)
  let parts : Parts :=
    { plate := plate, rotor := rotor, rotor1 := rotor1,
      rotationaxis := rotationaxis, cube := cube, angle := angle,
      shaft := shaft, angle1 := angle1, cube1 := cube1, shaft001 := shaft001,
      cube2 := cube2, angle2 := angle2, gripper := gripper,
      gripper1 := gripper1, thruster := thruster, thruster1 := thruster1,
      thruster2 := thruster2, thruster3 := thruster3 }
  match deleteTemplates s with
  | .ok s2 => .ok (parts, s2)
  | .error e => .error e

/-- Embedding of `importArmRobot` (lines 311-458): delete every object in
the scene, import the seven templates, duplicate and pose the eighteen
parts, delete the templates, return the part list. -/
def importArmRobot (assets : List String) (s : Scene) :
    Except Err (Parts × Scene) :=
  importArmRobotBody (importTemplates assets (clearAllObjects s))

/-- `transformasiRidho` (lines 570-576): translate all 18 parts by
`(15,0,0)`, then rotate the 13-part linkage together about global Z by the
radian value `360`. -/
def transformasiRidho (p : Parts) (trig : Trig) (s : Scene) :
    Except Err Scene := do
  let s ← translateAll s (armRobotObjectList p) 15 0 0
  rotateObjectOnSelect s (rotationListOf p) 360 Axis.Z trig

/-- `transformasiRidho2` (lines 578-584): translate by `(0,10,0)`, rotate
the linkage about global Z by `11`. -/
def transformasiRidho2 (p : Parts) (trig : Trig) (s : Scene) :
    Except Err Scene := do
  let s ← translateAll s (armRobotObjectList p) 0 10 0
  rotateObjectOnSelect s (rotationListOf p) 11 Axis.Z trig

/-- `transformasiRidho3` (lines 586-592): translate by `(-15,0,0)`, rotate
the linkage about global Z by `-360`. -/
def transformasiRidho3 (p : Parts) (trig : Trig) (s : Scene) :
    Except Err Scene := do
  let s ← translateAll s (armRobotObjectList p) (-15) 0 0
  rotateObjectOnSelect s (rotationListOf p) (-360) Axis.Z trig

/-- `transformasiRidho4` (lines 594-600): translate by `(0,-15,0)`, rotate
the linkage about global Z by `-11`. -/
def transformasiRidho4 (p : Parts) (trig : Trig) (s : Scene) :
    Except Err Scene := do
  let s ← translateAll s (armRobotObjectList p) 0 (-15) 0
  rotateObjectOnSelect s (rotationListOf p) (-11) Axis.Z trig

/-- `transformasiHarish` (lines 604-607): rotate each of 7 joint parts,
one at a time, about global X by `-0.268581` radians. -/
def transformasiHarish (p : Parts) (trig : Trig) (s : Scene) :
    Except Err Scene :=
  xRotateAll s (harishListOf p) (-268581/1000000) trig

/-- `transformasiHarish2` (lines 609-612). -/
def transformasiHarish2 (p : Parts) (trig : Trig) (s : Scene) :
    Except Err Scene :=
  xRotateAll s (harishListOf p) (268581/1000000) trig

/-- `transformasiHarish3` (lines 614-617). -/
def transformasiHarish3 (p : Parts) (trig : Trig) (s : Scene) :
    Except Err Scene :=
  xRotateAll s (harishListOf p) (-268581/1000000) trig

/-- `transformasiDhea` (lines 623-626). -/
def transformasiDhea (p : Parts) (trig : Trig) (s : Scene) :
    Except Err Scene :=
  xRotateAll s (dheaListOf p) (-268581/1000000) trig

/-- `transformasiDhea2` (lines 628-631). -/
def transformasiDhea2 (p : Parts) (trig : Trig) (s : Scene) :
    Except Err Scene :=
  xRotateAll s (dheaListOf p) (268581/1000000) trig

/-- `transformasiDhea3` (lines 633-636). -/
def transformasiDhea3 (p : Parts) (trig : Trig) (s : Scene) :
    Except Err Scene :=
  xRotateAll s (dheaListOf p) (-268581/1000000) trig

/-- Embedding of `gen_centerpiece` (lines 638-670), the sequencer entry
point: assemble, record the mark-1 keyframes, then four phase transitions
each followed by its keyframe recording (marks 100, 200, 300, 400).  The
Python function falls off its end, i.e. it returns `None` -- modelled as
the value `none` of an optional part list. -/
def gen_centerpiece (assets : List String) (trig : Trig) (s : Scene) :
    Except Err (Option (List (Option String)) × Scene) := do
  let (p, s) ← importArmRobot assets s
  let robotArmObj := armRobotObjectList p
  let s ← insertKeyFrameForObjectTrans s robotArmObj "rotation_euler" 1
  let s ← insertKeyFrameForObjectTrans s robotArmObj "location" 1
  let s ← transformasiRidho p trig s
  let s ← transformasiDhea p trig s
  let s ← transformasiHarish p trig s
  let s ← insertKeyFrameForObjectTrans s robotArmObj "rotation_euler" 100
  let s ← insertKeyFrameForObjectTrans s robotArmObj "location" 100
  let s ← transformasiRidho2 p trig s
  let s ← transformasiHarish2 p trig s
  let s ← transformasiDhea2 p trig s
  let s ← insertKeyFrameForObjectTrans s robotArmObj "rotation_euler" 200
  let s ← insertKeyFrameForObjectTrans s robotArmObj "location" 200
  let s ← transformasiRidho3 p trig s
  let s ← transformasiHarish3 p trig s
  let s ← transformasiDhea3 p trig s
  let s ← insertKeyFrameForObjectTrans s robotArmObj "rotation_euler" 300
  let s ← insertKeyFrameForObjectTrans s robotArmObj "location" 300
  let s ← transformasiRidho4 p trig s
  let s ← transformasiDhea p trig s
  let s ← transformasiHarish p trig s
  let s ← insertKeyFrameForObjectTrans s robotArmObj "rotation_euler" 400
  let s ← insertKeyFrameForObjectTrans s robotArmObj "location" 400
  return (none, s)

/-! ### Observation projections and concrete fixtures -/

/-- The names of the live objects, in scene order. -/
def names (s : Scene) : List String := s.objs.map (·.name)

/-- The keyframe bookkeeping of a scene, forgetting the recorded values:
for each object, its (channel, frame) pairs in recording order. -/
def absKf (s : Scene) : List (String × List (String × ℕ)) :=
  s.objs.map (fun o => (o.name, o.kfs.map (fun k => (k.channel, k.frame))))

/-- Name-to-scale map of the scene. -/
def sclM (s : Scene) : List (String × Vec3) :=
  s.objs.map (fun o => (o.name, o.scl))

/-- Current location of the named object. -/
def locOf (s : Scene) (n : String) : Option Vec3 := (getObj s n).map (·.loc)

/-- Current euler rotation of the named object. -/
def rotOf (s : Scene) (n : String) : Option Vec3 := (getObj s n).map (·.rot)

/-- The (frame, value) pairs recorded on the named object's location
channel, in recording order. -/
def lkf (s : Scene) (n : String) : Option (List (ℕ × Vec3)) :=
  (getObj s n).map (fun o => o.kfs.filterMap (fun k =>
    if k.channel == "location" then some (k.frame, k.value) else none))

/-- The time marks of one object's channel, read off the keyframe
bookkeeping. -/
def marksA (a : List (String × List (String × ℕ))) (n ch : String) :
    Option (List ℕ) :=
  (a.find? (fun e => e.1 == n)).map (fun e =>
    e.2.filterMap (fun p => if p.1 == ch then some p.2 else none))

/-- The sequence of time marks recorded on one object's channel. -/
def marks (s : Scene) (n : String) (ch : String) : Option (List ℕ) :=
  marksA (absKf s) n ch

/-- Every channel name keyframed anywhere in the scene. -/
def channelsUsed (s : Scene) : List String :=
  ((absKf s).map (fun e => e.2.map Prod.fst)).flatten

/-- The value a sequencer run hands back to its caller (`main`), when it
terminates without an exception. -/
def retVal (r : Except Err (Option (List (Option String)) × Scene)) :
    Option (Option (List (Option String))) :=
  match r with
  | .ok (v, _) => some v
  | .error _ => none

/-- Absolute value on ℚ, for approximate comparisons. -/
def absQ (q : ℚ) : ℚ := if q < 0 then -q else q

/-- Componentwise closeness within 1/100, formalising the spec's
"approximately" for concrete positions. -/
def nearVec (a b : Vec3) : Prop :=
  absQ (a.x - b.x) ≤ 1 / 100 ∧ absQ (a.y - b.y) ≤ 1 / 100 ∧
  absQ (a.z - b.z) ≤ 1 / 100

instance (a b : Vec3) : Decidable (nearVec a b) := by
  unfold nearVec
  infer_instance

/-- A trigonometric oracle mapping every angle to the identity rotation;
used only to INSTANTIATE run theorems that hold for every oracle. -/
def trigStd : Trig := fun _ => ⟨1, 0⟩

/-- The oracle value at a quarter turn (90 degrees): cosine 0, sine 1.
Used for the spec's concrete 90-degree scenarios. -/
def trigQuarter : Trig := fun _ => ⟨0, 1⟩

/-- The empty scene. -/
def empty0 : Scene := { objs := [], datablocks := [], nextData := 0, colls := [] }

/-- The eighteen duplicate names in `armRobot_object_list` order. -/
def std18names : List String :=
  ["plate", "rotor", "rotor1", "rotationaxis", "cube", "angle", "shaft",
   "angle1", "cube1", "shaft001", "cube2", "angle2", "gripper", "gripper1",
   "thruster", "thruster1", "thruster2", "thruster3"]

/-- The eighteen duplicate names in scene (creation) order. -/
def creation18names : List String :=
  ["plate", "rotor", "rotationaxis", "cube", "angle", "shaft", "angle1",
   "cube1", "shaft001", "cube2", "angle2", "rotor1", "gripper", "gripper1",
   "thruster", "thruster1", "thruster2", "thruster3"]

/-- The part handles of the nominal (all templates present) assembly. -/
def partsStd : Parts :=
  { plate := some "plate", rotor := some "rotor", rotor1 := some "rotor1",
    rotationaxis := some "rotationaxis", cube := some "cube",
    angle := some "angle", shaft := some "shaft", angle1 := some "angle1",
    cube1 := some "cube1", shaft001 := some "shaft001",
    cube2 := some "cube2", angle2 := some "angle2",
    gripper := some "gripper", gripper1 := some "gripper1",
    thruster := some "thruster", thruster1 := some "thruster1",
    thruster2 := some "thruster2", thruster3 := some "thruster3" }

/-- The scene `setup_scene` leaves behind for `gen_centerpiece`: the camera
and the tracker-target empty created by `setup_camera` (ArmRobot.py lines
126-151, 199-227), modelled with their host names and default data. -/
def camScene : Scene :=
  { objs :=
      [{ name := "Camera", dataId := 0, coll := "Scene Collection",
         loc := ⟨0, 0, 7⟩, rot := Vec3.zero, scl := Vec3.one, kfs := [] },
       { name := "empty.tracker-target.Camera", dataId := 1,
         coll := "Scene Collection", loc := Vec3.zero, rot := Vec3.zero,
         scl := Vec3.one, kfs := [] }],
    datablocks := [(0, 0), (1, 1)], nextData := 2, colls := [] }

/-- Projection of a transform-primitive result: the scene on success. -/
def okScene (r : Except Err Scene) : Option Scene :=
  match r with
  | .ok s => some s
  | .error _ => none

/-- The scene produced by the nominal Assemble (all templates present,
starting from the empty scene); computable, so concrete run facts about it
can be settled by kernel evaluation. -/
def s1std : Scene :=
  match importArmRobot templateNames empty0 with
  | .ok pr => pr.2
  | .error _ => empty0

/-- Keyframe bookkeeping of one `insertKeyFrameForObjectTrans` call: each
listed object, in order, gains the (channel, frame) pair. -/
def insFold (ns : List String) (ch : String) (t : ℕ)
    (a : List (String × List (String × ℕ))) :
    List (String × List (String × ℕ)) :=
  ns.foldl (fun a2 n => a2.map (fun e =>
    if e.1 == n then (e.1, e.2 ++ [(ch, t)]) else e)) a

/-- The reference time marks of the sequencer. -/
def refMarks : List ℕ := [1, 100, 200, 300, 400]

/-- The keyframe bookkeeping of the whole reference run: the mark-1
recording after Assemble, then one recording per phase transition. -/
def absKfFinal : List (String × List (String × ℕ)) :=
  insFold std18names "location" 400 (insFold std18names "rotation_euler" 400
    (insFold std18names "location" 300 (insFold std18names "rotation_euler" 300
      (insFold std18names "location" 200 (insFold std18names "rotation_euler" 200
        (insFold std18names "location" 100 (insFold std18names "rotation_euler" 100
          (insFold std18names "location" 1 (insFold std18names "rotation_euler" 1
            (absKf s1std))))))))))

/-- The rest location given to `plate` during Assemble. -/
def plateRest : Vec3 := ⟨-190249/100000, -935105/1000000, 490659/1000000⟩

/-- The location keyframes recorded on the fixed base `plate` across the
five marks: the four phase translations `(15,0,0)`, `(0,10,0)`,
`(-15,0,0)`, `(0,-15,0)` accumulate to a net `(0,-5,0)`, so the mark-400
value differs from the mark-1 value. -/
def plateTimeline : List (ℕ × Vec3) :=
  [(1, plateRest), (100, plateRest.add ⟨15, 0, 0⟩),
   (200, plateRest.add ⟨15, 10, 0⟩), (300, plateRest.add ⟨0, 10, 0⟩),
   (400, plateRest.add ⟨0, -5, 0⟩)]

/-- A one-template scene for the duplication claims: template "T" at a
non-default pose, referencing data block 0 whose content tag is 42. -/
def tObj : Obj :=
  { name := "T", dataId := 0, coll := "Collection",
    loc := ⟨5, 5, 5⟩, rot := ⟨1, 1, 1⟩, scl := ⟨2, 2, 2⟩, kfs := [] }

def dupScene : Scene :=
  { objs := [tObj], datablocks := [(0, 42)], nextData := 1,
    colls := ["Collection"] }

/-- A part at position (1,0,0) with identity orientation: the concrete
test subject of the spec's group-versus-local rotation scenario. -/
def partB : Obj :=
  { name := "b", dataId := 0, coll := "Collection",
    loc := ⟨1, 0, 0⟩, rot := Vec3.zero, scl := Vec3.one, kfs := [] }

def c7scene : Scene :=
  { objs := [partB], datablocks := [(0, 0)], nextData := 1,
    colls := ["Collection"] }

/-- A second part at (-1,0,0), making a two-part group whose median point
is the origin. -/
def partA2 : Obj :=
  { name := "a", dataId := 0, coll := "Collection",
    loc := ⟨-1, 0, 0⟩, rot := Vec3.zero, scl := Vec3.one, kfs := [] }

def c7scene2 : Scene :=
  { objs := [partB, partA2], datablocks := [(0, 0)], nextData := 1,
    colls := ["Collection"] }

/-- The asset set of the missing-template scenario: every template except
GRIPPER imports a live object. -/
def assets6 : List String :=
  ["ANGLE", "CUBE", "PLATE", "ROTATIONAXIS", "ROTOR", "SHAFT"]

/-- The per-object effect of one keyframe insertion on the abstract
keyframe bookkeeping: the named object gains the (channel, frame) pair. -/
def absKfApp (n ch : String) (t : ℕ)
    (a : List (String × List (String × ℕ))) :
    List (String × List (String × ℕ)) :=
  a.map (fun e => if e.1 == n then (e.1, e.2 ++ [(ch, t)]) else e)

/-- The thirteen-part moving linkage (`rotationList` of the
`transformasiRidho...` functions), by duplicate name. -/
def rot13names : List String :=
  ["rotor", "rotor1", "rotationaxis", "cube", "angle", "shaft", "angle1",
   "cube1", "shaft001", "cube2", "angle2", "gripper", "gripper1"]

/-- The seven-part forearm subset (`rotateList` of the
`transformasiHarish...` functions), by duplicate name. -/
def harish7names : List String :=
  ["angle1", "cube1", "shaft001", "cube2", "angle2", "gripper", "gripper1"]

/-- The thirteen-part subset of the `transformasiDhea...` functions, by
duplicate name. -/
def dhea13names : List String :=
  ["angle", "shaft", "angle1", "cube1", "shaft001", "cube2", "angle2",
   "gripper", "gripper1", "thruster", "thruster1", "thruster2", "thruster3"]

/-- The accumulated location keyframes of the fixed base `plate`, as the
reference run records them step by step. -/
def plateTimelineRaw : List (ℕ × Vec3) :=
  [(1, plateRest), (100, plateRest.add ⟨15, 0, 0⟩),
   (200, (plateRest.add ⟨15, 0, 0⟩).add ⟨0, 10, 0⟩),
   (300, ((plateRest.add ⟨15, 0, 0⟩).add ⟨0, 10, 0⟩).add ⟨-15, 0, 0⟩),
   (400, (((plateRest.add ⟨15, 0, 0⟩).add ⟨0, 10, 0⟩).add ⟨-15, 0, 0⟩).add ⟨0, -15, 0⟩)]

/-- The per-part (channel, frame) recording pattern of the reference run:
both channels at each of the five marks, the rotation channel first. -/
def refPattern : List (String × ℕ) :=
  [("rotation_euler", 1), ("location", 1), ("rotation_euler", 100),
   ("location", 100), ("rotation_euler", 200), ("location", 200),
   ("rotation_euler", 300), ("location", 300), ("rotation_euler", 400),
   ("location", 400)]

/-- The scene a failing `importArmRobot` run aborts in (the scene carried
by the raised exception), starting from the empty scene. -/
def importErrScene (assets : List String) : Scene :=
  match importArmRobot assets empty0 with
  | .error e => e.2
  | .ok pr => pr.2

/-! ### Helper lemmas -/

set_option maxRecDepth 100000

theorem objs_linkCollection (s : Scene) (c : String) :
    (linkCollection s c).objs = s.objs := by
  unfold linkCollection; split <;> rfl

theorem datablocks_linkCollection (s : Scene) (c : String) :
    (linkCollection s c).datablocks = s.datablocks := by
  unfold linkCollection; split <;> rfl

/-- Characterisation of a successful `duplicate_object`: the scene gains
one object, carrying the default identity pose and a fresh data block id,
and one data block, carrying a copy of the template's content. -/
theorem duplicate_object_success (s : Scene) (orig new : String)
    (c : Option String) (o : Obj) (hfound : getObj s orig = some o) :
    (duplicate_object s orig new c).1 = some new ∧
    (duplicate_object s orig new c).2.objs =
      s.objs ++
        [{ name := new, dataId := s.nextData, coll := c.getD o.coll,
           loc := Vec3.zero, rot := Vec3.zero, scl := Vec3.one,
           kfs := [] }] ∧
    (duplicate_object s orig new c).2.datablocks =
      s.datablocks ++ [(s.nextData, (dataPayload s o.dataId).getD 0)] ∧
    (duplicate_object s orig new c).2.nextData = s.nextData + 1 := by
  unfold duplicate_object
  rw [hfound]
  cases c with
  | none => exact ⟨rfl, rfl, rfl, rfl⟩
  | some cn =>
    refine ⟨rfl, ?_, ?_, ?_⟩ <;>
      simp [objs_linkCollection, datablocks_linkCollection, linkCollection] <;>
      split <;> rfl

/-! ### Machinery foundations -/

theorem mem_names_iff (s : Scene) (n : String) :
    (getObj s n).isSome ↔ n ∈ names s := by
  unfold getObj names
  rw [List.find?_isSome]
  constructor
  · rintro ⟨o, ho, hp⟩
    exact List.mem_map.mpr ⟨o, ho, by simpa using hp⟩
  · rintro hm
    obtain ⟨o, ho, he⟩ := List.mem_map.mp hm
    exact ⟨o, ho, by simp [he]⟩

theorem getObj_name (s : Scene) (m : String) (o : Obj)
    (h : getObj s m = some o) : o.name = m := by
  have := List.find?_some h
  simpa using this

theorem getObj_mapObjs (s : Scene) (g : Obj → Obj)
    (hn : ∀ o, (g o).name = o.name) (m : String) :
    getObj { s with objs := s.objs.map g } m = (getObj s m).map g := by
  show (s.objs.map g).find? (fun o => o.name == m) =
    (s.objs.find? (fun o => o.name == m)).map g
  rw [List.find?_map]
  have hpred : ((fun o : Obj => o.name == m) ∘ g) =
      (fun o : Obj => o.name == m) := by
    funext o
    simp [Function.comp, hn o]
  rw [hpred]

theorem names_mapObjs (s : Scene) (g : Obj → Obj)
    (hn : ∀ o, (g o).name = o.name) :
    names { s with objs := s.objs.map g } = names s := by
  show (s.objs.map g).map (·.name) = s.objs.map (·.name)
  rw [List.map_map]
  exact List.map_congr_left (fun o _ => hn o)

theorem absKf_mapObjs (s : Scene) (g : Obj → Obj)
    (hn : ∀ o, (g o).name = o.name) (hk : ∀ o, (g o).kfs = o.kfs) :
    absKf { s with objs := s.objs.map g } = absKf s := by
  show (s.objs.map g).map _ = s.objs.map _
  rw [List.map_map]
  exact List.map_congr_left (fun o _ => by simp [Function.comp, hn o, hk o])

theorem sclM_mapObjs (s : Scene) (g : Obj → Obj)
    (hn : ∀ o, (g o).name = o.name) (hs : ∀ o, (g o).scl = o.scl) :
    sclM { s with objs := s.objs.map g } = sclM s := by
  show (s.objs.map g).map _ = s.objs.map _
  rw [List.map_map]
  exact List.map_congr_left (fun o _ => by simp [Function.comp, hn o, hs o])

theorem lkf_mapObjs (s : Scene) (g : Obj → Obj)
    (hn : ∀ o, (g o).name = o.name) (hk : ∀ o, (g o).kfs = o.kfs)
    (m : String) :
    lkf { s with objs := s.objs.map g } m = lkf s m := by
  unfold lkf
  rw [getObj_mapObjs s g hn m]
  cases getObj s m with
  | none => rfl
  | some o => simp [hk o]

theorem Vec3.sub_self' (v : Vec3) : v.sub v = ⟨0, 0, 0⟩ := by
  simp [Vec3.sub]

theorem Vec3.add_zero' (v : Vec3) : v.add ⟨0, 0, 0⟩ = v := by
  simp [Vec3.add]

theorem rotAxis_zero (r : Rot) (ax : Axis) :
    rotAxis r ax ⟨0, 0, 0⟩ = ⟨0, 0, 0⟩ := by
  cases ax <;> simp [rotAxis]

theorem meanLoc_single (o : Obj) : meanLoc [o] = o.loc := by
  simp [meanLoc, Vec3.divQ, Vec3.add, Vec3.zero]

theorem filter_single_of_nodup_list (l : List Obj) (n : String) (o : Obj)
    (hd : (l.map (fun x => x.name)).Nodup)
    (h : l.find? (fun o2 => o2.name == n) = some o) :
    l.filter (fun o2 => [n].contains o2.name) = [o] := by
  induction l with
  | nil => simp at h
  | cons a l ih =>
    rw [List.map_cons, List.nodup_cons] at hd
    by_cases ha : a.name == n
    · rw [show List.find? (fun o2 => o2.name == n) (a :: l) = some a from
        List.find?_cons_of_pos l ha] at h
      obtain rfl : a = o := by simpa using h
      have hnon : ∀ o2 ∈ l, ¬([n].contains o2.name = true) := by
        intro o2 ho2 hc
        have h1 : o2.name = n := by simpa using hc
        have heq : a.name = n := by simpa using ha
        refine hd.1 ?_
        rw [heq, ← h1]
        exact List.mem_map_of_mem (fun x => x.name) ho2
      rw [List.filter_cons_of_pos (by simpa using ha)]
      rw [List.filter_eq_nil_iff.mpr hnon]
    · rw [show List.find? (fun o2 => o2.name == n) (a :: l) =
          List.find? (fun o2 => o2.name == n) l from
        List.find?_cons_of_neg l (by simpa using ha)] at h
      rw [List.filter_cons_of_neg (by simpa using ha)]
      exact ih hd.2 h

theorem filter_single_of_nodup (s : Scene) (n : String) (o : Obj)
    (hd : (names s).Nodup) (h : getObj s n = some o) :
    s.objs.filter (fun o2 => [n].contains o2.name) = [o] :=
  filter_single_of_nodup_list s.objs n o hd h

/-! ### Transform-primitive spec lemmas -/

theorem getObj_updObj (s : Scene) (nn : String) (f : Obj → Obj)
    (hn : ∀ o, (f o).name = o.name) (m : String) :
    getObj (updObj s nn f) m =
      (getObj s m).map (fun o => if o.name == nn then f o else o) :=
  getObj_mapObjs s _
    (fun o => by by_cases hc : o.name == nn <;> simp [hc, hn o]) m

theorem translate_ok (s : Scene) (n : String) (tx ty tz : ℚ)
    (h : n ∈ names s) :
    ∃ s', translate_object s (some n) tx ty tz = Except.ok s' ∧
      names s' = names s ∧ absKf s' = absKf s ∧ sclM s' = sclM s ∧
      (∀ m, lkf s' m = lkf s m) ∧
      locOf s' n = (locOf s n).map (fun L => L.add ⟨tx, ty, tz⟩) ∧
      (∀ m, m ≠ n → locOf s' m = locOf s m) := by
  have hs : (getObj s n).isSome := (mem_names_iff s n).mpr h
  refine ⟨updObj s n (fun o => { o with loc := o.loc.add ⟨tx, ty, tz⟩ }),
    ?_, ?_, ?_, ?_, ?_, ?_, ?_⟩
  · simp [translate_object, hs]
  · exact names_mapObjs s _ (fun o => by split <;> rfl)
  · exact absKf_mapObjs s _ (fun o => by split <;> rfl) (fun o => by split <;> rfl)
  · exact sclM_mapObjs s _ (fun o => by split <;> rfl) (fun o => by split <;> rfl)
  · exact fun m => lkf_mapObjs s _ (fun o => by split <;> rfl) (fun o => by split <;> rfl) m
  · unfold locOf
    rw [getObj_updObj s n (fun o => { o with loc := o.loc.add ⟨tx, ty, tz⟩ })
      (fun o => rfl) n]
    obtain ⟨o, ho⟩ := Option.isSome_iff_exists.mp hs
    rw [ho]
    have : o.name = n := getObj_name s n o ho
    simp [this]
  · intro m hm
    unfold locOf
    rw [getObj_updObj s n (fun o => { o with loc := o.loc.add ⟨tx, ty, tz⟩ })
      (fun o => rfl) m]
    cases hg : getObj s m with
    | none => rfl
    | some o =>
      have : o.name = m := getObj_name s m o hg
      simp [this, hm]

theorem translateAll_ok (ns : List String) : ∀ (s : Scene) (tx ty tz : ℚ),
    (∀ n ∈ ns, n ∈ names s) → ns.Nodup →
    ∃ s', translateAll s (ns.map some) tx ty tz = Except.ok s' ∧
      names s' = names s ∧ absKf s' = absKf s ∧ sclM s' = sclM s ∧
      (∀ m, lkf s' m = lkf s m) ∧
      (∀ m, m ∈ ns → locOf s' m = (locOf s m).map (fun L => L.add ⟨tx, ty, tz⟩)) ∧
      (∀ m, ¬ m ∈ ns → locOf s' m = locOf s m) := by
  induction ns with
  | nil =>
    intro s tx ty tz h hd
    exact ⟨s, rfl, rfl, rfl, rfl, fun m => rfl, by simp, fun m hm => rfl⟩
  | cons n ns ih =>
    intro s tx ty tz h hd
    rw [List.nodup_cons] at hd
    obtain ⟨s1, he1, hn1, ha1, hs1, hl1, hoc1, hoo1⟩ :=
      translate_ok s n tx ty tz (h n (List.mem_cons_self n ns))
    obtain ⟨s2, he2, hn2, ha2, hs2, hl2, hoc2, hoo2⟩ :=
      ih s1 tx ty tz
        (fun m hm => hn1 ▸ h m (List.mem_cons_of_mem n hm)) hd.2
    refine ⟨s2, ?_, hn2.trans hn1, ha2.trans ha1, hs2.trans hs1,
      fun m => (hl2 m).trans (hl1 m), ?_, ?_⟩
    · rw [List.map_cons]
      rw [show translateAll s (some n :: ns.map some) tx ty tz =
        (translate_object s (some n) tx ty tz).bind
          (fun st => translateAll st (ns.map some) tx ty tz) from by
        simp [translateAll]
        rfl]
      rw [he1]
      simpa using he2
    · intro m hm
      rcases List.mem_cons.mp hm with rfl | hm2
      · rw [hoo2 m hd.1, hoc1]
      · rw [hoc2 m hm2]
        congr 1
        exact hoo1 m (fun he => hd.1 (he ▸ hm2))
    · intro m hm
      rw [hoo2 m (fun h2 => hm (List.mem_cons_of_mem n h2)),
        hoo1 m (fun he => hm (he ▸ List.mem_cons_self n ns))]

theorem names_applyGlobalRotate (s : Scene) (sel : List String) (t : ℚ)
    (ax : Axis) (trig : Trig) :
    names (applyGlobalRotate s sel t ax trig) = names s := by
  unfold applyGlobalRotate
  exact names_mapObjs s _ (fun o => by split <;> rfl)

theorem absKf_applyGlobalRotate (s : Scene) (sel : List String) (t : ℚ)
    (ax : Axis) (trig : Trig) :
    absKf (applyGlobalRotate s sel t ax trig) = absKf s := by
  unfold applyGlobalRotate
  exact absKf_mapObjs s _ (fun o => by split <;> rfl)
    (fun o => by split <;> rfl)

theorem sclM_applyGlobalRotate (s : Scene) (sel : List String) (t : ℚ)
    (ax : Axis) (trig : Trig) :
    sclM (applyGlobalRotate s sel t ax trig) = sclM s := by
  unfold applyGlobalRotate
  exact sclM_mapObjs s _ (fun o => by split <;> rfl)
    (fun o => by split <;> rfl)

theorem lkf_applyGlobalRotate (s : Scene) (sel : List String) (t : ℚ)
    (ax : Axis) (trig : Trig) (m : String) :
    lkf (applyGlobalRotate s sel t ax trig) m = lkf s m := by
  unfold applyGlobalRotate
  exact lkf_mapObjs s _ (fun o => by split <;> rfl)
    (fun o => by split <;> rfl) m

theorem getObj_applyGlobalRotate (s : Scene) (sel : List String) (t : ℚ)
    (ax : Axis) (trig : Trig) (m : String) :
    getObj (applyGlobalRotate s sel t ax trig) m =
      (getObj s m).map (fun o =>
        if sel.contains o.name then
          { o with
            loc := (meanLoc (s.objs.filter
                (fun o2 => sel.contains o2.name))).add
              (rotAxis (trig t) ax (o.loc.sub (meanLoc (s.objs.filter
                (fun o2 => sel.contains o2.name))))),
            rot := eulerGlobalAdd ax t o.rot }
        else o) := by
  unfold applyGlobalRotate
  exact getObj_mapObjs s _ (fun o => by split <;> rfl) m

theorem rotateOnSelect_ok (ns : List String) (s : Scene) (t : ℚ) (ax : Axis)
    (trig : Trig) (h : ∀ n ∈ ns, n ∈ names s) :
    ∃ s', rotateObjectOnSelect s (ns.map some) t ax trig = Except.ok s' ∧
      names s' = names s ∧ absKf s' = absKf s ∧ sclM s' = sclM s ∧
      (∀ m, lkf s' m = lkf s m) ∧
      (∀ m, ¬ m ∈ ns → locOf s' m = locOf s m ∧ rotOf s' m = rotOf s m) := by
  have hg1 : (ns.map some).all Option.isSome = true := by simp
  have hfm : (ns.map some).filterMap id = ns := by simp
  have hg2 : ns.all (fun n => (getObj s n).isSome) = true := by
    rw [List.all_eq_true]
    intro n hn
    exact (mem_names_iff s n).mpr (h n hn)
  refine ⟨applyGlobalRotate s ns t ax trig, ?_, names_applyGlobalRotate _ _ _ _ _,
    absKf_applyGlobalRotate _ _ _ _ _, sclM_applyGlobalRotate _ _ _ _ _,
    fun m => lkf_applyGlobalRotate _ _ _ _ _ m, ?_⟩
  · simp [rotateObjectOnSelect, hg1, hfm, hg2]
  · intro m hm
    have hcont : ∀ o : Obj, o.name = m → ns.contains o.name = false := by
      intro o ho
      rw [ho]
      simpa using hm
    constructor
    · unfold locOf
      rw [getObj_applyGlobalRotate]
      cases hg : getObj s m with
      | none => rfl
      | some o =>
        have hn2 : ¬ o.name ∈ ns := by
          rw [getObj_name s m o hg]
          exact hm
        simp [hn2]
    · unfold rotOf
      rw [getObj_applyGlobalRotate]
      cases hg : getObj s m with
      | none => rfl
      | some o =>
        have hn2 : ¬ o.name ∈ ns := by
          rw [getObj_name s m o hg]
          exact hm
        simp [hn2]

theorem rotXaxis_spec (s : Scene) (n : String) (t : ℚ) (trig : Trig)
    (hd : (names s).Nodup) :
    names (rotate_object_on_x_axis s n t trig) = names s ∧
    absKf (rotate_object_on_x_axis s n t trig) = absKf s ∧
    sclM (rotate_object_on_x_axis s n t trig) = sclM s ∧
    (∀ m, lkf (rotate_object_on_x_axis s n t trig) m = lkf s m) ∧
    (∀ m, locOf (rotate_object_on_x_axis s n t trig) m = locOf s m) := by
  unfold rotate_object_on_x_axis
  cases hg : getObj s n with
  | none => exact ⟨rfl, rfl, rfl, fun m => rfl, fun m => rfl⟩
  | some o =>
    refine ⟨names_applyGlobalRotate _ _ _ _ _, absKf_applyGlobalRotate _ _ _ _ _,
      sclM_applyGlobalRotate _ _ _ _ _, fun m => lkf_applyGlobalRotate _ _ _ _ _ m, ?_⟩
    intro m
    unfold locOf
    rw [getObj_applyGlobalRotate]
    cases hm : getObj s m with
    | none => rfl
    | some o2 =>
      have hm_eq : o2.name = m := getObj_name s m o2 hm
      by_cases hc : o2.name = n
      · have hmn : m = n := hm_eq.symm.trans hc
        subst hmn
        rw [filter_single_of_nodup _ _ _ hd hm, meanLoc_single]
        have hcond : ([m] : List String).contains o2.name = true := by
          simp [hm_eq]
        simp [hcond, hc, Vec3.sub_self', rotAxis_zero, Vec3.add_zero']
      · have hcond : ([n] : List String).contains o2.name = false := by
          simp [hc]
        simp [hcond, hc]

theorem xRotateAll_ok (ns : List String) : ∀ (s : Scene) (t : ℚ) (trig : Trig),
    (names s).Nodup →
    ∃ s', xRotateAll s (ns.map some) t trig = Except.ok s' ∧
      names s' = names s ∧ absKf s' = absKf s ∧ sclM s' = sclM s ∧
      (∀ m, lkf s' m = lkf s m) ∧ (∀ m, locOf s' m = locOf s m) := by
  induction ns with
  | nil =>
    intro s t trig hd
    exact ⟨s, rfl, rfl, rfl, rfl, fun m => rfl, fun m => rfl⟩
  | cons n ns ih =>
    intro s t trig hd
    obtain ⟨hn1, ha1, hs1, hl1, ho1⟩ := rotXaxis_spec s n t trig hd
    obtain ⟨s2, he2, hn2, ha2, hs2, hl2, ho2⟩ :=
      ih (rotate_object_on_x_axis s n t trig) t trig (hn1 ▸ hd)
    refine ⟨s2, ?_, hn2.trans hn1, ha2.trans ha1, hs2.trans hs1,
      fun m => (hl2 m).trans (hl1 m), fun m => (ho2 m).trans (ho1 m)⟩
    rw [List.map_cons]
    rw [show xRotateAll s (some n :: ns.map some) t trig =
      xRotateAll (rotate_object_on_x_axis s n t trig) (ns.map some) t trig from by
      simp [xRotateAll]
      rfl]
    exact he2

theorem keyframe_insert_loc (s : Scene) (n : String) (t : ℕ) (o : Obj)
    (h : getObj s n = some o) :
    ∃ s', keyframe_insert s n "location" t = Except.ok s' ∧
      names s' = names s ∧ sclM s' = sclM s ∧
      (∀ m, locOf s' m = locOf s m) ∧
      absKf s' = absKfApp n "location" t (absKf s) ∧
      (∀ m, m ≠ n → lkf s' m = lkf s m) ∧
      lkf s' n = (lkf s n).map (fun l => l ++ [(t, o.loc)]) := by
  refine ⟨updObj s n (fun o2 =>
      { o2 with kfs := o2.kfs ++ [⟨"location", t, o.loc⟩] }), ?_, ?_, ?_, ?_, ?_, ?_, ?_⟩
  · simp [keyframe_insert, h]
  · exact names_mapObjs s _ (fun o2 => by split <;> rfl)
  · exact sclM_mapObjs s _ (fun o2 => by split <;> rfl) (fun o2 => by split <;> rfl)
  · intro m
    unfold locOf
    rw [getObj_updObj s n (fun o2 =>
      { o2 with kfs := o2.kfs ++ [⟨"location", t, o.loc⟩] }) (fun o2 => rfl) m]
    cases hg : getObj s m with
    | none => rfl
    | some o2 => by_cases hc : o2.name = n <;> simp [hc]
  · show absKf (updObj s n _) = _
    unfold absKf absKfApp updObj
    show (s.objs.map _).map _ = (s.objs.map _).map _
    rw [List.map_map, List.map_map]
    refine List.map_congr_left (fun o2 _ => ?_)
    by_cases hc : o2.name == n <;> simp [Function.comp, hc]
  · intro m hm
    unfold lkf
    rw [getObj_updObj s n (fun o2 =>
      { o2 with kfs := o2.kfs ++ [⟨"location", t, o.loc⟩] }) (fun o2 => rfl) m]
    cases hg : getObj s m with
    | none => rfl
    | some o2 =>
      have : o2.name = m := getObj_name s m o2 hg
      simp [this, hm]
  · unfold lkf
    rw [getObj_updObj s n (fun o2 =>
      { o2 with kfs := o2.kfs ++ [⟨"location", t, o.loc⟩] }) (fun o2 => rfl) n]
    rw [h]
    have : o.name = n := getObj_name s n o h
    simp [this]

theorem keyframe_insert_rot (s : Scene) (n : String) (t : ℕ) (o : Obj)
    (h : getObj s n = some o) :
    ∃ s', keyframe_insert s n "rotation_euler" t = Except.ok s' ∧
      names s' = names s ∧ sclM s' = sclM s ∧
      (∀ m, locOf s' m = locOf s m) ∧
      absKf s' = absKfApp n "rotation_euler" t (absKf s) ∧
      (∀ m, lkf s' m = lkf s m) := by
  refine ⟨updObj s n (fun o2 =>
      { o2 with kfs := o2.kfs ++ [⟨"rotation_euler", t, o.rot⟩] }), ?_, ?_, ?_, ?_, ?_, ?_⟩
  · simp [keyframe_insert, h]
  · exact names_mapObjs s _ (fun o2 => by split <;> rfl)
  · exact sclM_mapObjs s _ (fun o2 => by split <;> rfl) (fun o2 => by split <;> rfl)
  · intro m
    unfold locOf
    rw [getObj_updObj s n (fun o2 =>
      { o2 with kfs := o2.kfs ++ [⟨"rotation_euler", t, o.rot⟩] }) (fun o2 => rfl) m]
    cases hg : getObj s m with
    | none => rfl
    | some o2 => by_cases hc : o2.name = n <;> simp [hc]
  · show absKf (updObj s n _) = _
    unfold absKf absKfApp updObj
    show (s.objs.map _).map _ = (s.objs.map _).map _
    rw [List.map_map, List.map_map]
    refine List.map_congr_left (fun o2 _ => ?_)
    by_cases hc : o2.name == n <;> simp [Function.comp, hc]
  · intro m
    unfold lkf
    rw [getObj_updObj s n (fun o2 =>
      { o2 with kfs := o2.kfs ++ [⟨"rotation_euler", t, o.rot⟩] }) (fun o2 => rfl) m]
    cases hg : getObj s m with
    | none => rfl
    | some o2 =>
      by_cases hc : o2.name = n <;> simp [hc, List.filterMap_append]

theorem insFold_cons (n : String) (ns : List String) (ch : String) (t : ℕ)
    (a : List (String × List (String × ℕ))) :
    insFold (n :: ns) ch t a = insFold ns ch t (absKfApp n ch t a) := rfl

theorem insertKF_cons (s : Scene) (n : String) (ns : List (Option String))
    (ch : String) (t : ℕ) :
    insertKeyFrameForObjectTrans s (some n :: ns) ch t =
      (keyframe_insert s n ch t).bind
        (fun s1 => insertKeyFrameForObjectTrans s1 ns ch t) := by
  simp [insertKeyFrameForObjectTrans]
  rfl

theorem insertKF_loc_ok (ns : List String) : ∀ (s : Scene) (t : ℕ),
    (∀ n ∈ ns, n ∈ names s) → ns.Nodup →
    ∃ s', insertKeyFrameForObjectTrans s (ns.map some) "location" t = Except.ok s' ∧
      names s' = names s ∧ sclM s' = sclM s ∧
      (∀ m, locOf s' m = locOf s m) ∧
      absKf s' = insFold ns "location" t (absKf s) ∧
      (∀ m, ¬ m ∈ ns → lkf s' m = lkf s m) ∧
      (∀ m L, m ∈ ns → locOf s m = some L →
        lkf s' m = (lkf s m).map (fun l => l ++ [(t, L)])) := by
  induction ns with
  | nil =>
    intro s t h hd
    exact ⟨s, rfl, rfl, rfl, fun m => rfl, rfl, fun m _ => rfl, by simp⟩
  | cons n ns ih =>
    intro s t h hd
    rw [List.nodup_cons] at hd
    have hs : (getObj s n).isSome :=
      (mem_names_iff s n).mpr (h n (List.mem_cons_self n ns))
    obtain ⟨o, ho⟩ := Option.isSome_iff_exists.mp hs
    obtain ⟨s1, he1, hn1, hs1, hloc1, ha1, hlo1, hln1⟩ :=
      keyframe_insert_loc s n t o ho
    obtain ⟨s2, he2, hn2, hs2, hloc2, ha2, hlo2, hlm2⟩ :=
      ih s1 t (fun m hm => hn1 ▸ h m (List.mem_cons_of_mem n hm)) hd.2
    refine ⟨s2, ?_, hn2.trans hn1, hs2.trans hs1,
      fun m => (hloc2 m).trans (hloc1 m), ?_, ?_, ?_⟩
    · rw [List.map_cons, insertKF_cons, he1]
      simpa using he2
    · rw [insFold_cons, ha2, ha1]
    · intro m hm
      rw [List.mem_cons, not_or] at hm
      rw [hlo2 m hm.2, hlo1 m hm.1]
    · intro m L hm hL
      rcases List.mem_cons.mp hm with rfl | hm2
      · rw [hlo2 m hd.1, hln1]
        have hoL : o.loc = L := by
          unfold locOf at hL
          rw [ho] at hL
          simpa using hL
        rw [hoL]
      · have hmn : m ≠ n := fun he => hd.1 (he ▸ hm2)
        have hL1 : locOf s1 m = some L := (hloc1 m).trans hL
        rw [hlm2 m L hm2 hL1, hlo1 m hmn]

theorem insertKF_rot_ok (ns : List String) : ∀ (s : Scene) (t : ℕ),
    (∀ n ∈ ns, n ∈ names s) → ns.Nodup →
    ∃ s', insertKeyFrameForObjectTrans s (ns.map some) "rotation_euler" t =
        Except.ok s' ∧
      names s' = names s ∧ sclM s' = sclM s ∧
      (∀ m, locOf s' m = locOf s m) ∧
      absKf s' = insFold ns "rotation_euler" t (absKf s) ∧
      (∀ m, lkf s' m = lkf s m) := by
  induction ns with
  | nil =>
    intro s t h hd
    exact ⟨s, rfl, rfl, rfl, fun m => rfl, rfl, fun m => rfl⟩
  | cons n ns ih =>
    intro s t h hd
    rw [List.nodup_cons] at hd
    have hs : (getObj s n).isSome :=
      (mem_names_iff s n).mpr (h n (List.mem_cons_self n ns))
    obtain ⟨o, ho⟩ := Option.isSome_iff_exists.mp hs
    obtain ⟨s1, he1, hn1, hs1, hloc1, ha1, hl1⟩ := keyframe_insert_rot s n t o ho
    obtain ⟨s2, he2, hn2, hs2, hloc2, ha2, hl2⟩ :=
      ih s1 t (fun m hm => hn1 ▸ h m (List.mem_cons_of_mem n hm)) hd.2
    refine ⟨s2, ?_, hn2.trans hn1, hs2.trans hs1,
      fun m => (hloc2 m).trans (hloc1 m), ?_, fun m => (hl2 m).trans (hl1 m)⟩
    · rw [List.map_cons, insertKF_cons, he1]
      simpa using he2
    · rw [insFold_cons, ha2, ha1]

theorem ridhoPhase_spec (trig : Trig) (tx ty tz θ : ℚ) (s : Scene)
    (h : ∀ n ∈ std18names, n ∈ names s) :
    ∃ s', (do
        let s1 ← translateAll s (armRobotObjectList partsStd) tx ty tz
        rotateObjectOnSelect s1 (rotationListOf partsStd) θ Axis.Z trig) =
        Except.ok s' ∧
      names s' = names s ∧ absKf s' = absKf s ∧ sclM s' = sclM s ∧
      (∀ m, lkf s' m = lkf s m) ∧
      locOf s' "plate" = (locOf s "plate").map (fun L => L.add ⟨tx, ty, tz⟩) := by
  have hsub : ∀ n ∈ rot13names, n ∈ std18names := by decide
  obtain ⟨s1, he1, hn1, ha1, hs1, hl1, hoc1, hoo1⟩ :=
    translateAll_ok std18names s tx ty tz h (by decide)
  obtain ⟨s2, he2, hn2, ha2, hs2, hl2, ho2⟩ :=
    rotateOnSelect_ok rot13names s1 θ Axis.Z trig
      (fun n hn => hn1 ▸ h n (hsub n hn))
  refine ⟨s2, ?_, hn2.trans hn1, ha2.trans ha1, hs2.trans hs1,
    fun m => (hl2 m).trans (hl1 m), ?_⟩
  · rw [show armRobotObjectList partsStd = std18names.map some from by rfl,
      show rotationListOf partsStd = rot13names.map some from by rfl]
    rw [he1]
    simpa using he2
  · have hp : locOf s2 "plate" = locOf s1 "plate" :=
      (ho2 "plate" (by decide)).1
    rw [hp, hoc1 "plate" (by decide)]


theorem except_bind_ok {α β : Type} (x : α) (k : α → Except Err β) :
    (Except.ok x >>= k) = k x := rfl

theorem bind_eq_ok {α β : Type} {x : Except Err α} {k : α → Except Err β}
    {a : α} {b : β} (hx : x = Except.ok a) (hk : k a = Except.ok b) :
    (x >>= k) = Except.ok b := by
  subst hx
  exact hk

/-- The whole reference run, for an arbitrary trigonometric oracle: it
succeeds, returns `none`, and its final scene carries the eighteen parts
with the keyframe bookkeeping `absKfFinal`, the Assemble-time scales, and
the `plate` location timeline. -/
theorem gen_run (trig : Trig) :
    ∃ sF, gen_centerpiece templateNames trig empty0 = Except.ok (none, sF) ∧
      names sF = creation18names ∧
      absKf sF = absKfFinal ∧
      sclM sF = sclM s1std ∧
      lkf sF "plate" = some plateTimelineRaw := by
  have hndstd : std18names.Nodup := by decide
  have hndcre : creation18names.Nodup := by decide
  have hsubstd : ∀ n ∈ std18names, n ∈ creation18names := by decide
  have himp : importArmRobot templateNames empty0 = Except.ok (partsStd, s1std) := by rfl
  have hn0 : names s1std = creation18names := by rfl
  have hscl0 : sclM s1std = sclM s1std := rfl
  have hlkf0 : lkf s1std "plate" = some ([] : List (ℕ × Vec3)) := by rfl
  have hloc0 : locOf s1std "plate" = some plateRest := by rfl
  have hmem0 : ∀ n ∈ std18names, n ∈ names s1std := by
    rw [hn0]
    exact hsubstd
  have hnd0 : (names s1std).Nodup := by
    rw [hn0]
    exact hndcre
  obtain ⟨st1, he1, hna1, hsa1, hla1, hab1, hlk1⟩ :=
    insertKF_rot_ok std18names s1std 1 hmem0 hndstd
  have hn1 : names st1 = creation18names := hna1.trans hn0
  have hscl1 : sclM st1 = sclM s1std := hsa1.trans hscl0
  have habs1 : absKf st1 = insFold std18names "rotation_euler" 1 (absKf s1std) := hab1
  have hlkf1 : lkf st1 "plate" = some (([] : List (ℕ × Vec3))) := (hlk1 "plate").trans hlkf0
  have hloc1 : locOf st1 "plate" = some (plateRest) := (hla1 "plate").trans hloc0
  have hmem1 : ∀ n ∈ std18names, n ∈ names st1 := by
    rw [hn1]
    exact hsubstd
  have hnd1 : (names st1).Nodup := by
    rw [hn1]
    exact hndcre
  obtain ⟨st2, he2, hna2, hsa2, hla2, hab2, hlko2, hlkm2⟩ :=
    insertKF_loc_ok std18names st1 1 hmem1 hndstd
  have hn2 : names st2 = creation18names := hna2.trans hn1
  have hscl2 : sclM st2 = sclM s1std := hsa2.trans hscl1
  have habs2 : absKf st2 = insFold std18names "location" 1 (absKf st1) := hab2
  have hlkf2 : lkf st2 "plate" = some (([] : List (ℕ × Vec3)) ++ [(1, plateRest)]) := by
    rw [hlkm2 "plate" (plateRest) (by decide) hloc1, hlkf1]
    rfl
  have hloc2 : locOf st2 "plate" = some (plateRest) := (hla2 "plate").trans hloc1
  have hmem2 : ∀ n ∈ std18names, n ∈ names st2 := by
    rw [hn2]
    exact hsubstd
  have hnd2 : (names st2).Nodup := by
    rw [hn2]
    exact hndcre
  obtain ⟨st3, heD3, hna3, hab3, hsa3, hla3, hpl3⟩ :=
    ridhoPhase_spec trig (15) (0) (0) (360) st2 hmem2
  have he3 : transformasiRidho partsStd trig st2 = Except.ok st3 := heD3
  have hn3 : names st3 = creation18names := hna3.trans hn2
  have hscl3 : sclM st3 = sclM s1std := hsa3.trans hscl2
  have habs3 : absKf st3 = absKf st2 := hab3
  have hlkf3 : lkf st3 "plate" = some (([] : List (ℕ × Vec3)) ++ [(1, plateRest)]) := (hla3 "plate").trans hlkf2
  have hloc3 : locOf st3 "plate" = some ((plateRest).add ⟨15, 0, 0⟩) := by
    rw [hpl3, hloc2]
    rfl
  have hmem3 : ∀ n ∈ std18names, n ∈ names st3 := by
    rw [hn3]
    exact hsubstd
  have hnd3 : (names st3).Nodup := by
    rw [hn3]
    exact hndcre
  obtain ⟨st4, heD4, hna4, hab4, hsa4, hla4, hpl4⟩ :=
    xRotateAll_ok dhea13names st3 (-268581/1000000) trig hnd3
  have he4 : transformasiDhea partsStd trig st3 = Except.ok st4 := heD4
  have hn4 : names st4 = creation18names := hna4.trans hn3
  have hscl4 : sclM st4 = sclM s1std := hsa4.trans hscl3
  have habs4 : absKf st4 = absKf st3 := hab4
  have hlkf4 : lkf st4 "plate" = some (([] : List (ℕ × Vec3)) ++ [(1, plateRest)]) := (hla4 "plate").trans hlkf3
  have hloc4 : locOf st4 "plate" = some ((plateRest).add ⟨15, 0, 0⟩) := (hpl4 "plate").trans hloc3
  have hmem4 : ∀ n ∈ std18names, n ∈ names st4 := by
    rw [hn4]
    exact hsubstd
  have hnd4 : (names st4).Nodup := by
    rw [hn4]
    exact hndcre
  obtain ⟨st5, heD5, hna5, hab5, hsa5, hla5, hpl5⟩ :=
    xRotateAll_ok harish7names st4 (-268581/1000000) trig hnd4
  have he5 : transformasiHarish partsStd trig st4 = Except.ok st5 := heD5
  have hn5 : names st5 = creation18names := hna5.trans hn4
  have hscl5 : sclM st5 = sclM s1std := hsa5.trans hscl4
  have habs5 : absKf st5 = absKf st4 := hab5
  have hlkf5 : lkf st5 "plate" = some (([] : List (ℕ × Vec3)) ++ [(1, plateRest)]) := (hla5 "plate").trans hlkf4
  have hloc5 : locOf st5 "plate" = some ((plateRest).add ⟨15, 0, 0⟩) := (hpl5 "plate").trans hloc4
  have hmem5 : ∀ n ∈ std18names, n ∈ names st5 := by
    rw [hn5]
    exact hsubstd
  have hnd5 : (names st5).Nodup := by
    rw [hn5]
    exact hndcre
  obtain ⟨st6, he6, hna6, hsa6, hla6, hab6, hlk6⟩ :=
    insertKF_rot_ok std18names st5 100 hmem5 hndstd
  have hn6 : names st6 = creation18names := hna6.trans hn5
  have hscl6 : sclM st6 = sclM s1std := hsa6.trans hscl5
  have habs6 : absKf st6 = insFold std18names "rotation_euler" 100 (absKf st5) := hab6
  have hlkf6 : lkf st6 "plate" = some (([] : List (ℕ × Vec3)) ++ [(1, plateRest)]) := (hlk6 "plate").trans hlkf5
  have hloc6 : locOf st6 "plate" = some ((plateRest).add ⟨15, 0, 0⟩) := (hla6 "plate").trans hloc5
  have hmem6 : ∀ n ∈ std18names, n ∈ names st6 := by
    rw [hn6]
    exact hsubstd
  have hnd6 : (names st6).Nodup := by
    rw [hn6]
    exact hndcre
  obtain ⟨st7, he7, hna7, hsa7, hla7, hab7, hlko7, hlkm7⟩ :=
    insertKF_loc_ok std18names st6 100 hmem6 hndstd
  have hn7 : names st7 = creation18names := hna7.trans hn6
  have hscl7 : sclM st7 = sclM s1std := hsa7.trans hscl6
  have habs7 : absKf st7 = insFold std18names "location" 100 (absKf st6) := hab7
  have hlkf7 : lkf st7 "plate" = some (([] : List (ℕ × Vec3)) ++ [(1, plateRest)] ++ [(100, (plateRest).add ⟨15, 0, 0⟩)]) := by
    rw [hlkm7 "plate" ((plateRest).add ⟨15, 0, 0⟩) (by decide) hloc6, hlkf6]
    rfl
  have hloc7 : locOf st7 "plate" = some ((plateRest).add ⟨15, 0, 0⟩) := (hla7 "plate").trans hloc6
  have hmem7 : ∀ n ∈ std18names, n ∈ names st7 := by
    rw [hn7]
    exact hsubstd
  have hnd7 : (names st7).Nodup := by
    rw [hn7]
    exact hndcre
  obtain ⟨st8, heD8, hna8, hab8, hsa8, hla8, hpl8⟩ :=
    ridhoPhase_spec trig (0) (10) (0) (11) st7 hmem7
  have he8 : transformasiRidho2 partsStd trig st7 = Except.ok st8 := heD8
  have hn8 : names st8 = creation18names := hna8.trans hn7
  have hscl8 : sclM st8 = sclM s1std := hsa8.trans hscl7
  have habs8 : absKf st8 = absKf st7 := hab8
  have hlkf8 : lkf st8 "plate" = some (([] : List (ℕ × Vec3)) ++ [(1, plateRest)] ++ [(100, (plateRest).add ⟨15, 0, 0⟩)]) := (hla8 "plate").trans hlkf7
  have hloc8 : locOf st8 "plate" = some (((plateRest).add ⟨15, 0, 0⟩).add ⟨0, 10, 0⟩) := by
    rw [hpl8, hloc7]
    rfl
  have hmem8 : ∀ n ∈ std18names, n ∈ names st8 := by
    rw [hn8]
    exact hsubstd
  have hnd8 : (names st8).Nodup := by
    rw [hn8]
    exact hndcre
  obtain ⟨st9, heD9, hna9, hab9, hsa9, hla9, hpl9⟩ :=
    xRotateAll_ok harish7names st8 (268581/1000000) trig hnd8
  have he9 : transformasiHarish2 partsStd trig st8 = Except.ok st9 := heD9
  have hn9 : names st9 = creation18names := hna9.trans hn8
  have hscl9 : sclM st9 = sclM s1std := hsa9.trans hscl8
  have habs9 : absKf st9 = absKf st8 := hab9
  have hlkf9 : lkf st9 "plate" = some (([] : List (ℕ × Vec3)) ++ [(1, plateRest)] ++ [(100, (plateRest).add ⟨15, 0, 0⟩)]) := (hla9 "plate").trans hlkf8
  have hloc9 : locOf st9 "plate" = some (((plateRest).add ⟨15, 0, 0⟩).add ⟨0, 10, 0⟩) := (hpl9 "plate").trans hloc8
  have hmem9 : ∀ n ∈ std18names, n ∈ names st9 := by
    rw [hn9]
    exact hsubstd
  have hnd9 : (names st9).Nodup := by
    rw [hn9]
    exact hndcre
  obtain ⟨st10, heD10, hna10, hab10, hsa10, hla10, hpl10⟩ :=
    xRotateAll_ok dhea13names st9 (268581/1000000) trig hnd9
  have he10 : transformasiDhea2 partsStd trig st9 = Except.ok st10 := heD10
  have hn10 : names st10 = creation18names := hna10.trans hn9
  have hscl10 : sclM st10 = sclM s1std := hsa10.trans hscl9
  have habs10 : absKf st10 = absKf st9 := hab10
  have hlkf10 : lkf st10 "plate" = some (([] : List (ℕ × Vec3)) ++ [(1, plateRest)] ++ [(100, (plateRest).add ⟨15, 0, 0⟩)]) := (hla10 "plate").trans hlkf9
  have hloc10 : locOf st10 "plate" = some (((plateRest).add ⟨15, 0, 0⟩).add ⟨0, 10, 0⟩) := (hpl10 "plate").trans hloc9
  have hmem10 : ∀ n ∈ std18names, n ∈ names st10 := by
    rw [hn10]
    exact hsubstd
  have hnd10 : (names st10).Nodup := by
    rw [hn10]
    exact hndcre
  obtain ⟨st11, he11, hna11, hsa11, hla11, hab11, hlk11⟩ :=
    insertKF_rot_ok std18names st10 200 hmem10 hndstd
  have hn11 : names st11 = creation18names := hna11.trans hn10
  have hscl11 : sclM st11 = sclM s1std := hsa11.trans hscl10
  have habs11 : absKf st11 = insFold std18names "rotation_euler" 200 (absKf st10) := hab11
  have hlkf11 : lkf st11 "plate" = some (([] : List (ℕ × Vec3)) ++ [(1, plateRest)] ++ [(100, (plateRest).add ⟨15, 0, 0⟩)]) := (hlk11 "plate").trans hlkf10
  have hloc11 : locOf st11 "plate" = some (((plateRest).add ⟨15, 0, 0⟩).add ⟨0, 10, 0⟩) := (hla11 "plate").trans hloc10
  have hmem11 : ∀ n ∈ std18names, n ∈ names st11 := by
    rw [hn11]
    exact hsubstd
  have hnd11 : (names st11).Nodup := by
    rw [hn11]
    exact hndcre
  obtain ⟨st12, he12, hna12, hsa12, hla12, hab12, hlko12, hlkm12⟩ :=
    insertKF_loc_ok std18names st11 200 hmem11 hndstd
  have hn12 : names st12 = creation18names := hna12.trans hn11
  have hscl12 : sclM st12 = sclM s1std := hsa12.trans hscl11
  have habs12 : absKf st12 = insFold std18names "location" 200 (absKf st11) := hab12
  have hlkf12 : lkf st12 "plate" = some (([] : List (ℕ × Vec3)) ++ [(1, plateRest)] ++ [(100, (plateRest).add ⟨15, 0, 0⟩)] ++ [(200, ((plateRest).add ⟨15, 0, 0⟩).add ⟨0, 10, 0⟩)]) := by
    rw [hlkm12 "plate" (((plateRest).add ⟨15, 0, 0⟩).add ⟨0, 10, 0⟩) (by decide) hloc11, hlkf11]
    rfl
  have hloc12 : locOf st12 "plate" = some (((plateRest).add ⟨15, 0, 0⟩).add ⟨0, 10, 0⟩) := (hla12 "plate").trans hloc11
  have hmem12 : ∀ n ∈ std18names, n ∈ names st12 := by
    rw [hn12]
    exact hsubstd
  have hnd12 : (names st12).Nodup := by
    rw [hn12]
    exact hndcre
  obtain ⟨st13, heD13, hna13, hab13, hsa13, hla13, hpl13⟩ :=
    ridhoPhase_spec trig (-15) (0) (0) (-360) st12 hmem12
  have he13 : transformasiRidho3 partsStd trig st12 = Except.ok st13 := heD13
  have hn13 : names st13 = creation18names := hna13.trans hn12
  have hscl13 : sclM st13 = sclM s1std := hsa13.trans hscl12
  have habs13 : absKf st13 = absKf st12 := hab13
  have hlkf13 : lkf st13 "plate" = some (([] : List (ℕ × Vec3)) ++ [(1, plateRest)] ++ [(100, (plateRest).add ⟨15, 0, 0⟩)] ++ [(200, ((plateRest).add ⟨15, 0, 0⟩).add ⟨0, 10, 0⟩)]) := (hla13 "plate").trans hlkf12
  have hloc13 : locOf st13 "plate" = some ((((plateRest).add ⟨15, 0, 0⟩).add ⟨0, 10, 0⟩).add ⟨-15, 0, 0⟩) := by
    rw [hpl13, hloc12]
    rfl
  have hmem13 : ∀ n ∈ std18names, n ∈ names st13 := by
    rw [hn13]
    exact hsubstd
  have hnd13 : (names st13).Nodup := by
    rw [hn13]
    exact hndcre
  obtain ⟨st14, heD14, hna14, hab14, hsa14, hla14, hpl14⟩ :=
    xRotateAll_ok harish7names st13 (-268581/1000000) trig hnd13
  have he14 : transformasiHarish3 partsStd trig st13 = Except.ok st14 := heD14
  have hn14 : names st14 = creation18names := hna14.trans hn13
  have hscl14 : sclM st14 = sclM s1std := hsa14.trans hscl13
  have habs14 : absKf st14 = absKf st13 := hab14
  have hlkf14 : lkf st14 "plate" = some (([] : List (ℕ × Vec3)) ++ [(1, plateRest)] ++ [(100, (plateRest).add ⟨15, 0, 0⟩)] ++ [(200, ((plateRest).add ⟨15, 0, 0⟩).add ⟨0, 10, 0⟩)]) := (hla14 "plate").trans hlkf13
  have hloc14 : locOf st14 "plate" = some ((((plateRest).add ⟨15, 0, 0⟩).add ⟨0, 10, 0⟩).add ⟨-15, 0, 0⟩) := (hpl14 "plate").trans hloc13
  have hmem14 : ∀ n ∈ std18names, n ∈ names st14 := by
    rw [hn14]
    exact hsubstd
  have hnd14 : (names st14).Nodup := by
    rw [hn14]
    exact hndcre
  obtain ⟨st15, heD15, hna15, hab15, hsa15, hla15, hpl15⟩ :=
    xRotateAll_ok dhea13names st14 (-268581/1000000) trig hnd14
  have he15 : transformasiDhea3 partsStd trig st14 = Except.ok st15 := heD15
  have hn15 : names st15 = creation18names := hna15.trans hn14
  have hscl15 : sclM st15 = sclM s1std := hsa15.trans hscl14
  have habs15 : absKf st15 = absKf st14 := hab15
  have hlkf15 : lkf st15 "plate" = some (([] : List (ℕ × Vec3)) ++ [(1, plateRest)] ++ [(100, (plateRest).add ⟨15, 0, 0⟩)] ++ [(200, ((plateRest).add ⟨15, 0, 0⟩).add ⟨0, 10, 0⟩)]) := (hla15 "plate").trans hlkf14
  have hloc15 : locOf st15 "plate" = some ((((plateRest).add ⟨15, 0, 0⟩).add ⟨0, 10, 0⟩).add ⟨-15, 0, 0⟩) := (hpl15 "plate").trans hloc14
  have hmem15 : ∀ n ∈ std18names, n ∈ names st15 := by
    rw [hn15]
    exact hsubstd
  have hnd15 : (names st15).Nodup := by
    rw [hn15]
    exact hndcre
  obtain ⟨st16, he16, hna16, hsa16, hla16, hab16, hlk16⟩ :=
    insertKF_rot_ok std18names st15 300 hmem15 hndstd
  have hn16 : names st16 = creation18names := hna16.trans hn15
  have hscl16 : sclM st16 = sclM s1std := hsa16.trans hscl15
  have habs16 : absKf st16 = insFold std18names "rotation_euler" 300 (absKf st15) := hab16
  have hlkf16 : lkf st16 "plate" = some (([] : List (ℕ × Vec3)) ++ [(1, plateRest)] ++ [(100, (plateRest).add ⟨15, 0, 0⟩)] ++ [(200, ((plateRest).add ⟨15, 0, 0⟩).add ⟨0, 10, 0⟩)]) := (hlk16 "plate").trans hlkf15
  have hloc16 : locOf st16 "plate" = some ((((plateRest).add ⟨15, 0, 0⟩).add ⟨0, 10, 0⟩).add ⟨-15, 0, 0⟩) := (hla16 "plate").trans hloc15
  have hmem16 : ∀ n ∈ std18names, n ∈ names st16 := by
    rw [hn16]
    exact hsubstd
  have hnd16 : (names st16).Nodup := by
    rw [hn16]
    exact hndcre
  obtain ⟨st17, he17, hna17, hsa17, hla17, hab17, hlko17, hlkm17⟩ :=
    insertKF_loc_ok std18names st16 300 hmem16 hndstd
  have hn17 : names st17 = creation18names := hna17.trans hn16
  have hscl17 : sclM st17 = sclM s1std := hsa17.trans hscl16
  have habs17 : absKf st17 = insFold std18names "location" 300 (absKf st16) := hab17
  have hlkf17 : lkf st17 "plate" = some (([] : List (ℕ × Vec3)) ++ [(1, plateRest)] ++ [(100, (plateRest).add ⟨15, 0, 0⟩)] ++ [(200, ((plateRest).add ⟨15, 0, 0⟩).add ⟨0, 10, 0⟩)] ++ [(300, (((plateRest).add ⟨15, 0, 0⟩).add ⟨0, 10, 0⟩).add ⟨-15, 0, 0⟩)]) := by
    rw [hlkm17 "plate" ((((plateRest).add ⟨15, 0, 0⟩).add ⟨0, 10, 0⟩).add ⟨-15, 0, 0⟩) (by decide) hloc16, hlkf16]
    rfl
  have hloc17 : locOf st17 "plate" = some ((((plateRest).add ⟨15, 0, 0⟩).add ⟨0, 10, 0⟩).add ⟨-15, 0, 0⟩) := (hla17 "plate").trans hloc16
  have hmem17 : ∀ n ∈ std18names, n ∈ names st17 := by
    rw [hn17]
    exact hsubstd
  have hnd17 : (names st17).Nodup := by
    rw [hn17]
    exact hndcre
  obtain ⟨st18, heD18, hna18, hab18, hsa18, hla18, hpl18⟩ :=
    ridhoPhase_spec trig (0) (-15) (0) (-11) st17 hmem17
  have he18 : transformasiRidho4 partsStd trig st17 = Except.ok st18 := heD18
  have hn18 : names st18 = creation18names := hna18.trans hn17
  have hscl18 : sclM st18 = sclM s1std := hsa18.trans hscl17
  have habs18 : absKf st18 = absKf st17 := hab18
  have hlkf18 : lkf st18 "plate" = some (([] : List (ℕ × Vec3)) ++ [(1, plateRest)] ++ [(100, (plateRest).add ⟨15, 0, 0⟩)] ++ [(200, ((plateRest).add ⟨15, 0, 0⟩).add ⟨0, 10, 0⟩)] ++ [(300, (((plateRest).add ⟨15, 0, 0⟩).add ⟨0, 10, 0⟩).add ⟨-15, 0, 0⟩)]) := (hla18 "plate").trans hlkf17
  have hloc18 : locOf st18 "plate" = some (((((plateRest).add ⟨15, 0, 0⟩).add ⟨0, 10, 0⟩).add ⟨-15, 0, 0⟩).add ⟨0, -15, 0⟩) := by
    rw [hpl18, hloc17]
    rfl
  have hmem18 : ∀ n ∈ std18names, n ∈ names st18 := by
    rw [hn18]
    exact hsubstd
  have hnd18 : (names st18).Nodup := by
    rw [hn18]
    exact hndcre
  obtain ⟨st19, heD19, hna19, hab19, hsa19, hla19, hpl19⟩ :=
    xRotateAll_ok dhea13names st18 (-268581/1000000) trig hnd18
  have he19 : transformasiDhea partsStd trig st18 = Except.ok st19 := heD19
  have hn19 : names st19 = creation18names := hna19.trans hn18
  have hscl19 : sclM st19 = sclM s1std := hsa19.trans hscl18
  have habs19 : absKf st19 = absKf st18 := hab19
  have hlkf19 : lkf st19 "plate" = some (([] : List (ℕ × Vec3)) ++ [(1, plateRest)] ++ [(100, (plateRest).add ⟨15, 0, 0⟩)] ++ [(200, ((plateRest).add ⟨15, 0, 0⟩).add ⟨0, 10, 0⟩)] ++ [(300, (((plateRest).add ⟨15, 0, 0⟩).add ⟨0, 10, 0⟩).add ⟨-15, 0, 0⟩)]) := (hla19 "plate").trans hlkf18
  have hloc19 : locOf st19 "plate" = some (((((plateRest).add ⟨15, 0, 0⟩).add ⟨0, 10, 0⟩).add ⟨-15, 0, 0⟩).add ⟨0, -15, 0⟩) := (hpl19 "plate").trans hloc18
  have hmem19 : ∀ n ∈ std18names, n ∈ names st19 := by
    rw [hn19]
    exact hsubstd
  have hnd19 : (names st19).Nodup := by
    rw [hn19]
    exact hndcre
  obtain ⟨st20, heD20, hna20, hab20, hsa20, hla20, hpl20⟩ :=
    xRotateAll_ok harish7names st19 (-268581/1000000) trig hnd19
  have he20 : transformasiHarish partsStd trig st19 = Except.ok st20 := heD20
  have hn20 : names st20 = creation18names := hna20.trans hn19
  have hscl20 : sclM st20 = sclM s1std := hsa20.trans hscl19
  have habs20 : absKf st20 = absKf st19 := hab20
  have hlkf20 : lkf st20 "plate" = some (([] : List (ℕ × Vec3)) ++ [(1, plateRest)] ++ [(100, (plateRest).add ⟨15, 0, 0⟩)] ++ [(200, ((plateRest).add ⟨15, 0, 0⟩).add ⟨0, 10, 0⟩)] ++ [(300, (((plateRest).add ⟨15, 0, 0⟩).add ⟨0, 10, 0⟩).add ⟨-15, 0, 0⟩)]) := (hla20 "plate").trans hlkf19
  have hloc20 : locOf st20 "plate" = some (((((plateRest).add ⟨15, 0, 0⟩).add ⟨0, 10, 0⟩).add ⟨-15, 0, 0⟩).add ⟨0, -15, 0⟩) := (hpl20 "plate").trans hloc19
  have hmem20 : ∀ n ∈ std18names, n ∈ names st20 := by
    rw [hn20]
    exact hsubstd
  have hnd20 : (names st20).Nodup := by
    rw [hn20]
    exact hndcre
  obtain ⟨st21, he21, hna21, hsa21, hla21, hab21, hlk21⟩ :=
    insertKF_rot_ok std18names st20 400 hmem20 hndstd
  have hn21 : names st21 = creation18names := hna21.trans hn20
  have hscl21 : sclM st21 = sclM s1std := hsa21.trans hscl20
  have habs21 : absKf st21 = insFold std18names "rotation_euler" 400 (absKf st20) := hab21
  have hlkf21 : lkf st21 "plate" = some (([] : List (ℕ × Vec3)) ++ [(1, plateRest)] ++ [(100, (plateRest).add ⟨15, 0, 0⟩)] ++ [(200, ((plateRest).add ⟨15, 0, 0⟩).add ⟨0, 10, 0⟩)] ++ [(300, (((plateRest).add ⟨15, 0, 0⟩).add ⟨0, 10, 0⟩).add ⟨-15, 0, 0⟩)]) := (hlk21 "plate").trans hlkf20
  have hloc21 : locOf st21 "plate" = some (((((plateRest).add ⟨15, 0, 0⟩).add ⟨0, 10, 0⟩).add ⟨-15, 0, 0⟩).add ⟨0, -15, 0⟩) := (hla21 "plate").trans hloc20
  have hmem21 : ∀ n ∈ std18names, n ∈ names st21 := by
    rw [hn21]
    exact hsubstd
  have hnd21 : (names st21).Nodup := by
    rw [hn21]
    exact hndcre
  obtain ⟨st22, he22, hna22, hsa22, hla22, hab22, hlko22, hlkm22⟩ :=
    insertKF_loc_ok std18names st21 400 hmem21 hndstd
  have hn22 : names st22 = creation18names := hna22.trans hn21
  have hscl22 : sclM st22 = sclM s1std := hsa22.trans hscl21
  have habs22 : absKf st22 = insFold std18names "location" 400 (absKf st21) := hab22
  have hlkf22 : lkf st22 "plate" = some (([] : List (ℕ × Vec3)) ++ [(1, plateRest)] ++ [(100, (plateRest).add ⟨15, 0, 0⟩)] ++ [(200, ((plateRest).add ⟨15, 0, 0⟩).add ⟨0, 10, 0⟩)] ++ [(300, (((plateRest).add ⟨15, 0, 0⟩).add ⟨0, 10, 0⟩).add ⟨-15, 0, 0⟩)] ++ [(400, ((((plateRest).add ⟨15, 0, 0⟩).add ⟨0, 10, 0⟩).add ⟨-15, 0, 0⟩).add ⟨0, -15, 0⟩)]) := by
    rw [hlkm22 "plate" (((((plateRest).add ⟨15, 0, 0⟩).add ⟨0, 10, 0⟩).add ⟨-15, 0, 0⟩).add ⟨0, -15, 0⟩) (by decide) hloc21, hlkf21]
    rfl
  have hloc22 : locOf st22 "plate" = some (((((plateRest).add ⟨15, 0, 0⟩).add ⟨0, 10, 0⟩).add ⟨-15, 0, 0⟩).add ⟨0, -15, 0⟩) := (hla22 "plate").trans hloc21
  refine ⟨st22, ?_, hn22, ?_, hscl22, ?_⟩
  · show gen_centerpiece templateNames trig empty0 = Except.ok (none, st22)
    refine bind_eq_ok himp ?_
    refine bind_eq_ok he1 ?_
    refine bind_eq_ok he2 ?_
    refine bind_eq_ok he3 ?_
    refine bind_eq_ok he4 ?_
    refine bind_eq_ok he5 ?_
    refine bind_eq_ok he6 ?_
    refine bind_eq_ok he7 ?_
    refine bind_eq_ok he8 ?_
    refine bind_eq_ok he9 ?_
    refine bind_eq_ok he10 ?_
    refine bind_eq_ok he11 ?_
    refine bind_eq_ok he12 ?_
    refine bind_eq_ok he13 ?_
    refine bind_eq_ok he14 ?_
    refine bind_eq_ok he15 ?_
    refine bind_eq_ok he16 ?_
    refine bind_eq_ok he17 ?_
    refine bind_eq_ok he18 ?_
    refine bind_eq_ok he19 ?_
    refine bind_eq_ok he20 ?_
    refine bind_eq_ok he21 ?_
    refine bind_eq_ok he22 ?_
    rfl
  · rw [habs22, habs21, habs20, habs19, habs18, habs17, habs16, habs15, habs14, habs13, habs12, habs11, habs10, habs9, habs8, habs7, habs6, habs5, habs4, habs3, habs2, habs1]
    rfl
  · rw [hlkf22]
    rfl

theorem bind_eq_error {α β : Type} {x : Except Err α} {k : α → Except Err β}
    {e : Err} (hx : x = Except.error e) : (x >>= k) = Except.error e := by
  subst hx
  rfl

theorem find_map_refPattern : ∀ (l : List String), ∀ n ∈ l,
    (l.map (fun m => (m, refPattern))).find? (fun e => e.1 == n) =
      some (n, refPattern) := by
  intro l
  induction l with
  | nil => intro n hn; cases hn
  | cons a l ih =>
    intro n hn
    by_cases ha : a = n
    · subst ha
      rw [List.map_cons]
      exact List.find?_cons_of_pos _ (by simp)
    · rw [List.map_cons,
        show List.find? (fun e => e.1 == n)
            ((a, refPattern) :: l.map (fun m => (m, refPattern))) =
          List.find? (fun e => e.1 == n) (l.map (fun m => (m, refPattern))) from
        List.find?_cons_of_neg _ (by simpa using ha)]
      cases hn with
      | head => exact absurd rfl ha
      | tail _ h2 => exact ih n h2

theorem marksA_pattern (n ch : String) (hn : n ∈ creation18names) :
    marksA absKfFinal n ch =
      some (refPattern.filterMap
        (fun p => if p.1 == ch then some p.2 else none)) := by
  have habs : absKfFinal = creation18names.map (fun m => (m, refPattern)) := by
    rfl
  rw [habs]
  unfold marksA
  rw [find_map_refPattern creation18names n hn]
  rfl

theorem chain_refPattern (ch : String) :
    List.Chain' (· < ·)
      (refPattern.filterMap (fun p => if p.1 == ch then some p.2 else none)) := by
  by_cases h1 : "rotation_euler" = ch
  · subst h1
    rw [show refPattern.filterMap
        (fun p => if p.1 == "rotation_euler" then some p.2 else none) =
      refMarks from by rfl]
    norm_num [refMarks, List.chain'_cons]
  · by_cases h2 : "location" = ch
    · subst h2
      rw [show refPattern.filterMap
          (fun p => if p.1 == "location" then some p.2 else none) =
        refMarks from by rfl]
      norm_num [refMarks, List.chain'_cons]
    · have b1 : ("rotation_euler" == ch) = false := beq_eq_false_iff_ne.mpr h1
      have b2 : ("location" == ch) = false := beq_eq_false_iff_ne.mpr h2
      rw [show refPattern.filterMap
          (fun p => if p.1 == ch then some p.2 else none) = [] from by
        simp [refPattern]
        exact ⟨h1, h2, h1, h2, h1, h2, h1, h2, h1, h2⟩]
      exact List.chain'_nil

/-! ### Success-inversion lemmas: a phase step that returns normally
preserves every part's scale (and, for the pure transforms, the keyframe
bookkeeping). -/

theorem translate_object_inv {s s' : Scene} {r : Option String}
    {tx ty tz : ℚ} (h : translate_object s r tx ty tz = Except.ok s') :
    sclM s' = sclM s ∧ absKf s' = absKf s := by
  unfold translate_object at h
  split at h
  · exact Except.noConfusion h
  · split at h
    · have h2 := Except.ok.inj h
      subst h2
      refine ⟨?_, ?_⟩
      · exact sclM_mapObjs _ _ (fun o => by split <;> rfl)
          (fun o => by split <;> rfl)
      · exact absKf_mapObjs _ _ (fun o => by split <;> rfl)
          (fun o => by split <;> rfl)
    · exact Except.noConfusion h

theorem translateAll_inv : ∀ (refs : List (Option String)) {s s' : Scene}
    {tx ty tz : ℚ}, translateAll s refs tx ty tz = Except.ok s' →
    sclM s' = sclM s ∧ absKf s' = absKf s := by
  intro refs
  induction refs with
  | nil =>
    intro s s' tx ty tz h
    have h2 : s = s' := Except.ok.inj h
    subst h2
    exact ⟨rfl, rfl⟩
  | cons r rs ih =>
    intro s s' tx ty tz h
    rw [show translateAll s (r :: rs) tx ty tz =
      (translate_object s r tx ty tz).bind
        (fun st => translateAll st rs tx ty tz) from by
      simp [translateAll]
      rfl] at h
    cases hr : translate_object s r tx ty tz with
    | error e =>
      rw [hr] at h
      exact Except.noConfusion h
    | ok s1 =>
      rw [hr] at h
      obtain ⟨hs1, ha1⟩ := translate_object_inv hr
      obtain ⟨hs2, ha2⟩ := ih h
      exact ⟨hs2.trans hs1, ha2.trans ha1⟩

theorem rotateOnSelect_inv {s s' : Scene} {objList : List (Option String)}
    {t : ℚ} {ax : Axis} {trig : Trig}
    (h : rotateObjectOnSelect s objList t ax trig = Except.ok s') :
    sclM s' = sclM s ∧ absKf s' = absKf s := by
  unfold rotateObjectOnSelect at h
  split at h
  · simp only [] at h
    split at h
    · have h2 := Except.ok.inj h
      subst h2
      exact ⟨sclM_applyGlobalRotate _ _ _ _ _, absKf_applyGlobalRotate _ _ _ _ _⟩
    · exact Except.noConfusion h
  · exact Except.noConfusion h

theorem sclM_rotXaxis (s : Scene) (n : String) (t : ℚ) (trig : Trig) :
    sclM (rotate_object_on_x_axis s n t trig) = sclM s := by
  unfold rotate_object_on_x_axis
  cases getObj s n with
  | none => rfl
  | some o => exact sclM_applyGlobalRotate _ _ _ _ _

theorem absKf_rotXaxis (s : Scene) (n : String) (t : ℚ) (trig : Trig) :
    absKf (rotate_object_on_x_axis s n t trig) = absKf s := by
  unfold rotate_object_on_x_axis
  cases getObj s n with
  | none => rfl
  | some o => exact absKf_applyGlobalRotate _ _ _ _ _

theorem xRotateAll_inv : ∀ (refs : List (Option String)) {s s' : Scene}
    {t : ℚ} {trig : Trig}, xRotateAll s refs t trig = Except.ok s' →
    sclM s' = sclM s ∧ absKf s' = absKf s := by
  intro refs
  induction refs with
  | nil =>
    intro s s' t trig h
    have h2 : s = s' := Except.ok.inj h
    subst h2
    exact ⟨rfl, rfl⟩
  | cons r rs ih =>
    intro s s' t trig h
    cases r with
    | none =>
      rw [show xRotateAll s (none :: rs) t trig = Except.error
        ("AttributeError: NoneType object has no attribute name", s) from rfl] at h
      exact Except.noConfusion h
    | some n =>
      rw [show xRotateAll s (some n :: rs) t trig =
        xRotateAll (rotate_object_on_x_axis s n t trig) rs t trig from by
        simp [xRotateAll]
        rfl] at h
      obtain ⟨hs2, ha2⟩ := ih h
      exact ⟨hs2.trans (sclM_rotXaxis s n t trig),
        ha2.trans (absKf_rotXaxis s n t trig)⟩

theorem ridhoStep_inv {p : Parts} {trig : Trig} {s s' : Scene}
    {tx ty tz θ : ℚ}
    (h : (do
        let s1 ← translateAll s (armRobotObjectList p) tx ty tz
        rotateObjectOnSelect s1 (rotationListOf p) θ Axis.Z trig) =
      Except.ok s') :
    sclM s' = sclM s := by
  cases ht : translateAll s (armRobotObjectList p) tx ty tz with
  | error e =>
    rw [ht] at h
    exact Except.noConfusion h
  | ok s1 =>
    rw [ht] at h
    exact (rotateOnSelect_inv h).1.trans (translateAll_inv _ ht).1

theorem keyframe_insert_sclM_inv {s s' : Scene} {n ch : String} {t : ℕ}
    (h : keyframe_insert s n ch t = Except.ok s') : sclM s' = sclM s := by
  unfold keyframe_insert at h
  split at h
  · exact Except.noConfusion h
  · split at h
    · have h2 := Except.ok.inj h
      subst h2
      exact sclM_mapObjs s _ (fun o2 => by split <;> rfl)
        (fun o2 => by split <;> rfl)
    · split at h
      · have h2 := Except.ok.inj h
        subst h2
        exact sclM_mapObjs s _ (fun o2 => by split <;> rfl)
          (fun o2 => by split <;> rfl)
      · exact Except.noConfusion h

theorem insertKF_sclM_inv : ∀ (objList : List (Option String)) {ch : String}
    {t : ℕ} {s s' : Scene},
    insertKeyFrameForObjectTrans s objList ch t = Except.ok s' →
    sclM s' = sclM s := by
  intro objList
  induction objList with
  | nil =>
    intro ch t s s' h
    have h2 : s = s' := Except.ok.inj h
    subst h2
    rfl
  | cons r rs ih =>
    intro ch t s s' h
    cases r with
    | none =>
      rw [show insertKeyFrameForObjectTrans s (none :: rs) ch t = Except.error
        ("AttributeError: NoneType object has no attribute keyframe_insert", s)
        from rfl] at h
      exact Except.noConfusion h
    | some n =>
      rw [insertKF_cons s n rs ch t] at h
      cases hk : keyframe_insert s n ch t with
      | error e =>
        rw [hk] at h
        exact Except.noConfusion h
      | ok s1 =>
        rw [hk] at h
        exact (ih h).trans (keyframe_insert_sclM_inv hk)

/-! ### Claim theorems -/

/-- C2, counterexample: duplicating the template "T" of `dupScene` yields a
part referencing shape-data block 1 while the template references block 0:
`duplicate_object` runs `original_object.data.copy()`, so template and
duplicate do NOT refer to the same shape-data block, contrary to the
claim. -/
theorem c2_counterexample :
    (duplicate_object dupScene "T" "t" (some "Collection")).1 = some "t" ∧
    ((getObj (duplicate_object dupScene "T" "t" (some "Collection")).2 "t").map
      Obj.dataId = some 1) ∧
    ((getObj (duplicate_object dupScene "T" "t" (some "Collection")).2 "T").map
      Obj.dataId = some 0) := by
  exact ⟨rfl, rfl, rfl⟩

/-- C2 (amended): for every successful duplication the new Part references
a FRESH shape-data block, distinct from the template's, whose content is
copied verbatim from the template's block; the template object itself is
untouched.  (The geometry DATA is copied; only its content coincides.) -/
theorem c2_duplicate_copies_data (s : Scene) (orig new : String)
    (c : Option String) (o : Obj)
    (hfound : getObj s orig = some o)
    (hnew : getObj s new = none)
    (hdata : (dataPayload s o.dataId).isSome)
    (hwfd : ∀ d ∈ s.datablocks, d.1 < s.nextData) :
    ∃ o2, getObj (duplicate_object s orig new c).2 new = some o2 ∧
      o2.dataId ≠ o.dataId ∧
      dataPayload (duplicate_object s orig new c).2 o2.dataId =
        dataPayload s o.dataId ∧
      getObj (duplicate_object s orig new c).2 orig = some o := by
  obtain ⟨p, hp⟩ := Option.isSome_iff_exists.mp hdata
  have hod : o.dataId < s.nextData := by
    unfold dataPayload at hp
    obtain ⟨d, hd1, hd2⟩ := Option.map_eq_some'.mp hp
    have hpred := List.find?_some hd1
    have hmem := List.mem_of_find?_eq_some hd1
    have he : d.1 = o.dataId := by simpa using hpred
    exact he ▸ hwfd d hmem
  obtain ⟨h1, hobjs, hdbs, _⟩ := duplicate_object_success s orig new c o hfound
  unfold getObj at hnew hfound ⊢
  refine ⟨{ name := new, dataId := s.nextData, coll := c.getD o.coll,
            loc := Vec3.zero, rot := Vec3.zero, scl := Vec3.one,
            kfs := [] }, ?_, ?_, ?_, ?_⟩
  · rw [hobjs, List.find?_append, hnew]
    simp
  · show s.nextData ≠ o.dataId
    exact Nat.ne_of_gt hod
  · show dataPayload _ s.nextData = _
    unfold dataPayload
    rw [hdbs, List.find?_append]
    have hnone : s.datablocks.find? (fun d => d.1 == s.nextData) = none := by
      rw [List.find?_eq_none]
      intro d hd
      have := hwfd d hd
      simp
      omega
    rw [hnone, hp]
    simp
    exact hp.symm
  · rw [hobjs, List.find?_append, hfound]
    simp

/-- Witness of C2's amended theorem at the concrete `dupScene`. -/
theorem c2_duplicate_copies_data_witness :
    ∃ o2, getObj (duplicate_object dupScene "T" "t" (some "Collection")).2 "t" =
        some o2 ∧
      o2.dataId ≠ tObj.dataId ∧
      dataPayload (duplicate_object dupScene "T" "t" (some "Collection")).2
        o2.dataId = dataPayload dupScene tObj.dataId ∧
      getObj (duplicate_object dupScene "T" "t" (some "Collection")).2 "T" =
        some tObj :=
  c2_duplicate_copies_data dupScene "T" "t" (some "Collection") tObj rfl rfl
    (by decide) (by decide)

/-- C3, counterexample: `translate_object` applied to a null part reference
is not a no-op: the source dereferences `obj.name` with no guard (line
500), so a null argument raises `AttributeError` before any mutation --
refuting the claim that EVERY transform primitive is a null-tolerant
no-op. -/
theorem c3_counterexample :
    translate_object empty0 none 15 0 0 =
      Except.error
        ("AttributeError: NoneType object has no attribute name", empty0) := rfl

/-- C3 (amended): `set_location`, `rotate_object` and `resize_object` are
no-ops (not errors) on a null part reference, but `translate_object` and
`rotateObjectOnSelect` are not: both dereference `.name` unguarded and
raise `AttributeError`, leaving all scene state unchanged at the raise. -/
theorem c3_null_tolerance_is_partial :
    (∀ (s : Scene) (x y z : ℚ), set_location s none x y z = s) ∧
    (∀ (s : Scene) (x y z : ℚ), rotate_object s none x y z = s) ∧
    (∀ (s : Scene) (x y z : ℚ), resize_object s none x y z = s) ∧
    (∀ (s : Scene) (x y z : ℚ),
      ∃ m, translate_object s none x y z = Except.error (m, s)) ∧
    (∀ (s : Scene) (pre post : List (Option String)) (t : ℚ) (ax : Axis)
        (trig : Trig),
      ∃ m, rotateObjectOnSelect s (pre ++ none :: post) t ax trig =
        Except.error (m, s)) := by
  refine ⟨fun s x y z => rfl, fun s x y z => rfl, fun s x y z => rfl,
    fun s x y z => ⟨_, rfl⟩,
    fun s pre post t ax trig =>
      ⟨"AttributeError: NoneType object has no attribute name", ?_⟩⟩
  have hall : (pre ++ none :: post).all Option.isSome = false := by
    simp [List.all_append]
  simp [rotateObjectOnSelect, hall]

/-- C4, counterexample: the template "T" of `dupScene` sits at location
(5,5,5), rotation (1,1,1), scale (2,2,2), yet its fresh duplicate "t" is
created at the host's DEFAULT pose -- location (0,0,0), rotation (0,0,0),
scale (1,1,1) -- not at the template's last-known pose. -/
theorem c4_counterexample :
    ((getObj (duplicate_object dupScene "T" "t" (some "Collection")).2 "t").map
      (fun o => (o.loc, o.rot, o.scl))) =
      some (Vec3.zero, Vec3.zero, Vec3.one) ∧
    ((getObj dupScene "T").map (fun o => (o.loc, o.rot, o.scl))) =
      some (⟨5, 5, 5⟩, ⟨1, 1, 1⟩, ⟨2, 2, 2⟩) ∧
    (Vec3.zero, Vec3.zero, Vec3.one) ≠
      ((⟨5, 5, 5⟩ : Vec3), (⟨1, 1, 1⟩ : Vec3), (⟨2, 2, 2⟩ : Vec3)) := by
  exact ⟨rfl, rfl, by decide⟩

/-- C4 (amended): immediately after a successful duplication, and before
any explicit transform, the new Part's pose is the host's default identity
pose (location (0,0,0), rotation (0,0,0), scale (1,1,1)), independent of
the template's pose. -/
theorem c4_duplicate_default_pose (s : Scene) (orig new : String)
    (c : Option String) (o : Obj)
    (hfound : getObj s orig = some o) (hnew : getObj s new = none) :
    ∃ o2, getObj (duplicate_object s orig new c).2 new = some o2 ∧
      o2.loc = Vec3.zero ∧ o2.rot = Vec3.zero ∧ o2.scl = Vec3.one := by
  obtain ⟨_, hobjs, _, _⟩ := duplicate_object_success s orig new c o hfound
  unfold getObj at hnew ⊢
  refine ⟨{ name := new, dataId := s.nextData, coll := c.getD o.coll,
            loc := Vec3.zero, rot := Vec3.zero, scl := Vec3.one,
            kfs := [] }, ?_, rfl, rfl, rfl⟩
  rw [hobjs, List.find?_append, hnew]
  simp

/-- Witness of C4's amended theorem at the concrete `dupScene`. -/
theorem c4_duplicate_default_pose_witness :
    ∃ o2, getObj (duplicate_object dupScene "T" "t" (some "Collection")).2 "t" =
        some o2 ∧
      o2.loc = Vec3.zero ∧ o2.rot = Vec3.zero ∧ o2.scl = Vec3.one :=
  c4_duplicate_default_pose dupScene "T" "t" (some "Collection") tObj rfl rfl

/-- C7, counterexample: the part "b" sits at (1,0,0); the group
`rotateAboutAxis` of the one-part group {b} by a quarter turn about global
Z leaves its position at exactly (1,0,0), because `bpy.ops.transform.rotate`
pivots at the MEDIAN_POINT of the selection -- here the part's own origin --
not at the scene origin; (1,0,0) is not approximately (0,1,0) as the claim
asserts. -/
theorem c7_counterexample :
    (okScene (rotateObjectOnSelect c7scene [some "b"] (157/100) Axis.Z
        trigQuarter)).map (fun s => locOf s "b") = some (some ⟨1, 0, 0⟩) ∧
    ¬ nearVec ⟨1, 0, 0⟩ ⟨0, 1, 0⟩ := by
  constructor
  · simp [rotateObjectOnSelect, applyGlobalRotate, meanLoc, c7scene, partB,
      getObj, okScene, locOf, Vec3.add, Vec3.sub, Vec3.divQ, Vec3.zero,
      Vec3.one, rotAxis, trigQuarter]
  · norm_num [nearVec, absQ]

/-- C7 (amended): group rotation and local rotation are distinct
operations, but the group pivot is the MEDIAN POINT of the selection, not
the scene origin: (a) group-rotating the single part at (1,0,0) a quarter
turn about global Z keeps its position (the pivot coincides with the part)
and adds the angle to its Z orientation; (b) local `rotateBy(z=90°)`
likewise keeps the position and only turns the orientation; (c) on a
two-part group at (1,0,0) and (-1,0,0) -- whose median is the origin -- the
same group rotation orbits the parts to (0,1,0) and (0,-1,0), which no
local rotation does. -/
theorem c7_group_median_vs_local_rotation :
    (okScene (rotateObjectOnSelect c7scene [some "b"] (157/100) Axis.Z
        trigQuarter)).map (fun s => (locOf s "b", rotOf s "b")) =
      some (some ⟨1, 0, 0⟩, some ⟨0, 0, 157/100⟩) ∧
    locOf (rotate_object c7scene (some "b") 0 0 90) "b" = some ⟨1, 0, 0⟩ ∧
    rotOf (rotate_object c7scene (some "b") 0 0 90) "b" =
      some ⟨0, 0, radiansQ 90⟩ ∧
    radiansQ 90 ≠ 0 ∧
    (okScene (rotateObjectOnSelect c7scene2 [some "b", some "a"] (157/100)
        Axis.Z trigQuarter)).map (fun s => (locOf s "b", locOf s "a")) =
      some (some ⟨0, 1, 0⟩, some ⟨0, -1, 0⟩) := by
  refine ⟨?_, ?_, ?_, ?_, ?_⟩
  · simp [rotateObjectOnSelect, applyGlobalRotate, meanLoc, c7scene, partB,
      getObj, okScene, locOf, rotOf, Vec3.add, Vec3.sub, Vec3.divQ, Vec3.zero,
      Vec3.one, rotAxis, eulerGlobalAdd, trigQuarter]
  · simp [rotate_object, c7scene, partB, getObj, locOf, updObj]
  · simp [rotate_object, c7scene, partB, getObj, rotOf, updObj, Vec3.zero]
    norm_num [radiansQ, piQ]
  · norm_num [radiansQ, piQ]
  · simp [rotateObjectOnSelect, applyGlobalRotate, meanLoc, c7scene2, partB,
      partA2, getObj, okScene, locOf, Vec3.add, Vec3.sub, Vec3.divQ,
      Vec3.zero, Vec3.one, rotAxis, trigQuarter]

/-- C9: the Assemble step starts by selecting and deleting EVERY object in
the scene (lines 322-323), unconditionally: the cleared scene has no
objects, `importArmRobot` is literally the import/duplication body applied
to that cleared scene, and on the scene left by `setup_scene` (camera plus
tracker-target empty) the assembly ends with exactly the eighteen
duplicates -- camera and tracker no longer exist. -/
theorem c9_assemble_deletes_preexisting :
    (∀ s : Scene, (clearAllObjects s).objs = []) ∧
    (∀ (assets : List String) (s : Scene),
      importArmRobot assets s =
        importArmRobotBody (importTemplates assets (clearAllObjects s))) ∧
    (importArmRobot templateNames camScene).map (fun pr => names pr.2) =
      Except.ok creation18names ∧
    ¬ "Camera" ∈ creation18names ∧
    ¬ "empty.tracker-target.Camera" ∈ creation18names := by
  exact ⟨fun s => rfl, fun assets s => rfl, rfl, by decide, by decide⟩

/-- C6, counterexample: the reference sequencer run terminates normally
and hands back `None` to its caller -- not the list of part handles: the
source `gen_centerpiece` has no return statement. -/
theorem c6_counterexample :
    retVal (gen_centerpiece templateNames trigStd empty0) = some none ∧
    some (none : Option (List (Option String))) ≠
      some (some (std18names.map some)) := by
  exact ⟨rfl, by decide⟩

/-- C1: the five-phase choreography does NOT close the loop.  For every
trigonometric oracle the reference run succeeds and records the fixed base
`plate`'s location at the five marks, but the value recorded at the last
mark (400) is the value of the first mark (1) displaced by `(0, -5, 0)`:
the four phase translations `(15,0,0)`, `(0,10,0)`, `(-15,0,0)`,
`(0,-15,0)` do not sum to zero, so the first and last recorded poses of
the base differ and the animation does not loop. -/
theorem c1_loop_closure_fails (trig : Trig) :
    ∃ sF, gen_centerpiece templateNames trig empty0 = Except.ok (none, sF) ∧
      lkf sF "plate" = some plateTimelineRaw ∧
      plateTimelineRaw.map Prod.fst = refMarks ∧
      plateTimelineRaw.head? = some (1, plateRest) ∧
      plateTimelineRaw.getLast? = some (400, plateRest.add ⟨0, -5, 0⟩) ∧
      plateRest.add ⟨0, -5, 0⟩ ≠ plateRest := by
  obtain ⟨sF, hgen, hnames, habs, hscl, hplk⟩ := gen_run trig
  refine ⟨sF, hgen, hplk, by rfl, by rfl, ?_, ?_⟩
  · rw [show plateTimelineRaw.getLast? =
      some (400, (((plateRest.add ⟨15, 0, 0⟩).add ⟨0, 10, 0⟩).add
        ⟨-15, 0, 0⟩).add ⟨0, -15, 0⟩) from by rfl]
    rw [show (((plateRest.add ⟨15, 0, 0⟩).add ⟨0, 10, 0⟩).add
        ⟨-15, 0, 0⟩).add ⟨0, -15, 0⟩ = plateRest.add ⟨0, -5, 0⟩ from by
      simp [plateRest, Vec3.add]
      norm_num]
  · intro hEq
    have hy := congrArg Vec3.y hEq
    simp only [plateRest, Vec3.add] at hy
    norm_num at hy

/-- C5: a missing template during Assemble is fatal before any keyframe.
For every template name `t`, importing with every template except `t`
aborts with a `KeyError` (raised while the seven template objects are
selected for deletion, ArmRobot.py lines 446-454), the sequencer run
aborts with the very same exception and scene, and the abort scene carries
no keyframe on any part or channel -- so no time mark is ever recorded and
no phase transform runs. -/
theorem c5_missing_template_aborts (trig : Trig) (t : String)
    (h : t ∈ templateNames) :
    importArmRobot (templateNames.erase t) empty0 =
      Except.error ("KeyError", importErrScene (templateNames.erase t)) ∧
    gen_centerpiece (templateNames.erase t) trig empty0 =
      Except.error ("KeyError", importErrScene (templateNames.erase t)) ∧
    (absKf (importErrScene (templateNames.erase t))).all
      (fun e => e.2.isEmpty) = true := by
  fin_cases h
  · exact ⟨by rfl, bind_eq_error (by rfl), by rfl⟩
  · exact ⟨by rfl, bind_eq_error (by rfl), by rfl⟩
  · exact ⟨by rfl, bind_eq_error (by rfl), by rfl⟩
  · exact ⟨by rfl, bind_eq_error (by rfl), by rfl⟩
  · exact ⟨by rfl, bind_eq_error (by rfl), by rfl⟩
  · exact ⟨by rfl, bind_eq_error (by rfl), by rfl⟩
  · exact ⟨by rfl, bind_eq_error (by rfl), by rfl⟩

/-- Witness of C5 at the spec's concrete scenario: the GRIPPER template is
the one missing. -/
theorem c5_missing_template_aborts_witness :
    "GRIPPER" ∈ templateNames ∧
    (importArmRobot (templateNames.erase "GRIPPER") empty0 =
       Except.error ("KeyError", importErrScene (templateNames.erase "GRIPPER")) ∧
     gen_centerpiece (templateNames.erase "GRIPPER") trigStd empty0 =
       Except.error ("KeyError", importErrScene (templateNames.erase "GRIPPER")) ∧
     (absKf (importErrScene (templateNames.erase "GRIPPER"))).all
       (fun e => e.2.isEmpty) = true) :=
  ⟨by decide, c5_missing_template_aborts trigStd "GRIPPER" (by decide)⟩

/-- C6 (amended): `importArmRobot` does return the full eighteen-part
handle list internally, and after the mark-400 keyframes the sequencer
terminates normally with no further mutation -- but the sequencer entry
point `gen_centerpiece` itself falls off its end and hands `none` back to
its caller, not the part list. -/
theorem c6_sequencer_returns_none (trig : Trig) :
    (importArmRobot templateNames empty0).map
      (fun pr => armRobotObjectList pr.1) =
      Except.ok (std18names.map some) ∧
    ∃ sF, gen_centerpiece templateNames trig empty0 = Except.ok (none, sF) ∧
      retVal (gen_centerpiece templateNames trig empty0) = some none := by
  obtain ⟨sF, hgen, hnames, habs, hscl, hplk⟩ := gen_run trig
  refine ⟨by rfl, sF, hgen, ?_⟩
  rw [hgen]
  rfl

/-- C8: keyframe marks are strictly increasing.  In the reference run
(which succeeds for every trigonometric oracle) each of the eighteen
parts records, on every channel, a strictly increasing sequence of time
marks, and on the two channels actually keyframed the marks are exactly
1, 100, 200, 300, 400. -/
theorem c8_keyframe_marks_strictly_increasing (trig : Trig) :
    ∃ sF, gen_centerpiece templateNames trig empty0 = Except.ok (none, sF) ∧
      absKf sF = absKfFinal ∧
      (∀ n ∈ creation18names, ∀ ch ms,
        marksA absKfFinal n ch = some ms → List.Chain' (· < ·) ms) ∧
      (∀ n ∈ creation18names,
        marksA absKfFinal n "location" = some refMarks ∧
        marksA absKfFinal n "rotation_euler" = some refMarks) := by
  obtain ⟨sF, hgen, hnames, habs, hscl, hplk⟩ := gen_run trig
  refine ⟨sF, hgen, habs, ?_, ?_⟩
  · intro n hn ch ms hm
    rw [marksA_pattern n ch hn] at hm
    have h2 := Option.some.inj hm
    exact h2 ▸ chain_refPattern ch
  · intro n hn
    refine ⟨?_, ?_⟩
    · rw [marksA_pattern n "location" hn]
      rfl
    · rw [marksA_pattern n "rotation_euler" hn]
      rfl

/-- C10: the phase transforms never touch scale and the scale channel is
never keyframed.  Each of the ten phase functions, and the keyframe
recorder, preserves every part's scale whenever it returns normally; in
the reference run the final scales are exactly the Assemble-time scales,
and only the "location" and "rotation_euler" channels ever receive a
keyframe. -/
theorem c10_scale_frozen_never_keyframed (trig : Trig) :
    (∀ p s s', transformasiRidho p trig s = Except.ok s' → sclM s' = sclM s) ∧
    (∀ p s s', transformasiRidho2 p trig s = Except.ok s' → sclM s' = sclM s) ∧
    (∀ p s s', transformasiRidho3 p trig s = Except.ok s' → sclM s' = sclM s) ∧
    (∀ p s s', transformasiRidho4 p trig s = Except.ok s' → sclM s' = sclM s) ∧
    (∀ p s s', transformasiHarish p trig s = Except.ok s' → sclM s' = sclM s) ∧
    (∀ p s s', transformasiHarish2 p trig s = Except.ok s' → sclM s' = sclM s) ∧
    (∀ p s s', transformasiHarish3 p trig s = Except.ok s' → sclM s' = sclM s) ∧
    (∀ p s s', transformasiDhea p trig s = Except.ok s' → sclM s' = sclM s) ∧
    (∀ p s s', transformasiDhea2 p trig s = Except.ok s' → sclM s' = sclM s) ∧
    (∀ p s s', transformasiDhea3 p trig s = Except.ok s' → sclM s' = sclM s) ∧
    (∀ ol ch t s s',
      insertKeyFrameForObjectTrans s ol ch t = Except.ok s' →
        sclM s' = sclM s) ∧
    ∃ sF, gen_centerpiece templateNames trig empty0 = Except.ok (none, sF) ∧
      sclM sF = sclM s1std ∧
      (channelsUsed sF).all
        (fun ch => ch == "location" || ch == "rotation_euler") = true ∧
      (channelsUsed sF).contains "scale" = false := by
  obtain ⟨sF, hgen, hnames, habs, hscl, hplk⟩ := gen_run trig
  have hch : channelsUsed sF =
      (absKfFinal.map (fun e => e.2.map Prod.fst)).flatten := by
    unfold channelsUsed
    rw [habs]
  refine ⟨fun p s s' h => ridhoStep_inv h,
    fun p s s' h => ridhoStep_inv h,
    fun p s s' h => ridhoStep_inv h,
    fun p s s' h => ridhoStep_inv h,
    fun p s s' h => (xRotateAll_inv _ h).1,
    fun p s s' h => (xRotateAll_inv _ h).1,
    fun p s s' h => (xRotateAll_inv _ h).1,
    fun p s s' h => (xRotateAll_inv _ h).1,
    fun p s s' h => (xRotateAll_inv _ h).1,
    fun p s s' h => (xRotateAll_inv _ h).1,
    fun ol ch t s s' h => insertKF_sclM_inv ol h,
    sF, hgen, hscl, ?_, ?_⟩
  · rw [hch]
    rfl
  · rw [hch]
    rfl
